import Mathlib

/-!
Verification of the registration backend (Express + PostgreSQL controllers).

The controllers are embedded shallowly: the database is an explicit record of
tables (lists of rows), every handler is a pure function from the committed
database state and the request payload to a result together with the new
committed state.  A transaction is modelled as a run function producing either
an error or the fully written state; the wrapper commits on success and
returns the original state on any failure (ROLLBACK, or an early return that
never reaches COMMIT).  Database-level failures of individual statements are
modelled by an optional injected failing step, mirroring "step N is forced to
fail".
-/

namespace RegistrationApp

/-- SQL `LOWER`, modelled structurally so that concrete lookups evaluate. -/
def sqlLower (s : String) : String := ⟨s.data.map Char.toLower⟩

/-- SQL `TRIM`, modelled structurally so that concrete lookups evaluate. -/
def sqlTrim (s : String) : String :=
  ⟨((s.data.dropWhile Char.isWhitespace).reverse.dropWhile Char.isWhitespace).reverse⟩

/-- JS `x || null` for an optional string field: `undefined`, `null` and the
empty string all collapse to SQL NULL. -/
def orNull : Option String → Option String
  | none => none
  | some s => if s = "" then none else some s

/-- JS `x || null` for a required string field: the empty string collapses to
SQL NULL. -/
def orNullS (s : String) : Option String :=
  if s = "" then none else some s

/-! ## Request payload sections (shapes produced by the Angular form layer) -/

structure ChildInfo where
  firstName : String
  middleName : String
  lastName : String
  gender : String
  dateOfBirth : String
  placeOfBirth : String
deriving DecidableEq, Repr

structure ParentGuardianInfo where
  firstName : String
  middleName : String
  lastName : String
  email : String
  address1 : String
  address2 : String
  city : String
  state : String
  country : String
  zipCode : String
  phoneType : String
  phoneNumber : String
  relationship : String
  alternatePhoneType : Option String
  alternatePhoneNumber : Option String
  countryCode : Option String
  alternateCountryCode : Option String
deriving DecidableEq, Repr

structure MedicalInfo where
  physicianFirstName : String
  physicianMiddleName : Option String
  physicianLastName : String
  physicianName : Option String
  address1 : String
  address2 : String
  city : String
  state : String
  country : String
  zipCode : String
  phoneType : String
  phoneNumber : String
  alternatePhoneType : Option String
  alternatePhoneNumber : Option String
  countryCode : Option String
deriving DecidableEq, Repr

structure CareFacilityInfo where
  emergencyContactName : String
  emergencyPhoneNumber : String
  address1 : String
  address2 : String
  city : String
  state : String
  country : String
  zipCode : String
  phoneType : String
  countryCode : Option String
deriving DecidableEq, Repr

/-- Enrollment selection as submitted to the name-based create variant:
`programType`, `roomType`, `planType` are display names resolved by
case-insensitive trimmed lookup. -/
structure EnrollmentSelectionByName where
  programType : String
  roomType : String
  planType : String
deriving DecidableEq, Repr

/-- Enrollment selection as submitted to the id-based create/update variants:
the three fields carry the ids directly. -/
structure EnrollmentSelectionById where
  programType : Nat
  roomType : Nat
  planType : Nat
  status : Option String
deriving DecidableEq, Repr

structure PayloadByName where
  email : String
  childInfo : ChildInfo
  parentGuardianInfo : ParentGuardianInfo
  medicalInfo : MedicalInfo
  careFacilityInfo : CareFacilityInfo
  enrollmentProgramDetails : EnrollmentSelectionByName
deriving DecidableEq, Repr

structure PayloadById where
  email : String
  childInfo : ChildInfo
  parentGuardianInfo : ParentGuardianInfo
  medicalInfo : MedicalInfo
  careFacilityInfo : CareFacilityInfo
  enrollmentProgramDetails : EnrollmentSelectionById
deriving DecidableEq, Repr

/-! ## Database rows (one structure per table; nullable columns are `Option`) -/

structure UserRow where
  userid : Nat
  email : String
  password : String
  roleid : Nat
deriving DecidableEq, Repr

structure ChildRow where
  childid : Nat
  firstname : Option String
  middlename : Option String
  lastname : Option String
  gender : Option String
  dateofbirth : Option String
  placeofbirth : Option String
  parentuserid : Option Nat
deriving DecidableEq, Repr

structure GuardianRow where
  guardianid : Nat
  firstname : Option String
  middlename : Option String
  lastname : Option String
  emailaddress : Option String
  addressline1 : Option String
  addressline2 : Option String
  city : Option String
  state : Option String
  country : Option String
  zipcode : Option String
  phonetype : Option String
  phonenumber : Option String
  alternatephonetype : Option String
  alternatenumber : Option String
  countrycode : Option String
  alternatecountrycode : Option String
deriving DecidableEq, Repr

structure ChildGuardianRow where
  childid : Nat
  guardianid : Nat
  relationtype : String
  isprimary : Bool
deriving DecidableEq, Repr

structure MedicalContactRow where
  medicalcontactid : Nat
  childid : Nat
  physicianname : Option String
  middlename : Option String
  lastname : Option String
  addressline1 : Option String
  addressline2 : Option String
  city : Option String
  state : Option String
  country : Option String
  zipcode : Option String
  phonetype : Option String
  phonenumber : Option String
  alternatephonetype : Option String
  alternatenumber : Option String
  countrycode : Option String
deriving DecidableEq, Repr

structure CareFacilityRow where
  facilityid : Nat
  childid : Nat
  emergencycontactname : Option String
  emergencyphonenumber : Option String
  addressline1 : Option String
  addressline2 : Option String
  city : Option String
  state : Option String
  country : Option String
  zipcode : Option String
  phonetype : Option String
  countrycode : Option String
deriving DecidableEq, Repr

structure ProgramRow where
  programid : Nat
  programname : String
deriving DecidableEq, Repr

structure RoomTypeRow where
  roomtypeid : Nat
  roomtype : String
deriving DecidableEq, Repr

structure PaymentPlanRow where
  paymentplanid : Nat
  plantype : String
deriving DecidableEq, Repr

structure EnrollmentPlanRow where
  enrollmentplanid : Nat
  programid : Nat
  roomtypeid : Nat
deriving DecidableEq, Repr

structure RegistrationRow where
  registrationid : Nat
  childid : Nat
  enrollmentplanid : Nat
  status : String
  paymentplanid : Nat
  amount : Nat
deriving DecidableEq, Repr

/-- The committed database state: one list per table, plus the next value of
each SERIAL id column. -/
structure Db where
  users : List UserRow
  children : List ChildRow
  guardians : List GuardianRow
  childGuardians : List ChildGuardianRow
  medicalcontacts : List MedicalContactRow
  carefacilities : List CareFacilityRow
  programs : List ProgramRow
  roomtypes : List RoomTypeRow
  paymentplans : List PaymentPlanRow
  enrollmentplans : List EnrollmentPlanRow
  registrations : List RegistrationRow
  nextChildId : Nat
  nextGuardianId : Nat
  nextMedicalId : Nat
  nextFacilityId : Nat
  nextRegistrationId : Nat
deriving DecidableEq, Repr

/-! ## Create-registration transaction -/

/-- The database statements of the create transaction; a step can be forced to
fail to model a database error at that point. -/
inductive CreateStep
  | userLookup
  | insertChild
  | insertGuardian
  | insertChildGuardian
  | insertMedical
  | insertCareFacility
  | lookupProgram
  | lookupRoom
  | lookupEnrollmentPlan
  | lookupPaymentPlan
  | insertRegistration
  | commit
deriving DecidableEq, Repr

inductive CreateError
  | userNotFound
  | invalidProgramOrRoom
  | noEnrollmentPlan
  | invalidPaymentPlan
  | databaseError
deriving DecidableEq, Repr

/-- Error message attached to each failure (the thrown `Error` message, or the
body of the early 400 response). -/
def createErrorMessage : CreateError → String
  | .userNotFound => "User not found"
  | .invalidProgramOrRoom => "Invalid program or room type"
  | .noEnrollmentPlan => "No enrollment plan found for selected program & room"
  | .invalidPaymentPlan => "Invalid payment plan type"
  | .databaseError => "database error"

/-- Whether the injected failure hits this step. -/
def failsAt (failAt : Option CreateStep) (s : CreateStep) : Bool :=
  failAt == some s

/-- Body of the name-based `createRegistration` (src/unnamed/part_009 lines
30-253) between BEGIN and COMMIT: user lookup, five inserts, lookup
resolution, registration insert.  Returns the fully written state on success;
any error aborts the transaction. -/
def createRegistrationRun (db : Db) (p : PayloadByName)
    (failAt : Option CreateStep) : Except CreateError (Nat × Db) :=
  if failsAt failAt .userLookup then .error .databaseError else
  match db.users.find? (fun r => sqlLower r.email == sqlLower p.email) with
  | none => .error .userNotFound
  | some u =>
    if failsAt failAt .insertChild then .error .databaseError else
    let childId := db.nextChildId
    let childRow : ChildRow := {
      childid := childId
      firstname := some p.childInfo.firstName
      middlename := some p.childInfo.middleName
      lastname := some p.childInfo.lastName
      gender := some p.childInfo.gender
      dateofbirth := some p.childInfo.dateOfBirth
      placeofbirth := some p.childInfo.placeOfBirth
      parentuserid := some u.userid }
    let db : Db := { db with
      children := db.children ++ [childRow]
      nextChildId := childId + 1 }
    if failsAt failAt .insertGuardian then .error .databaseError else
    let guardianId := db.nextGuardianId
    let guardianRow : GuardianRow := {
      guardianid := guardianId
      firstname := some p.parentGuardianInfo.firstName
      middlename := some p.parentGuardianInfo.middleName
      lastname := some p.parentGuardianInfo.lastName
      emailaddress := some p.parentGuardianInfo.email
      addressline1 := some p.parentGuardianInfo.address1
      addressline2 := some p.parentGuardianInfo.address2
      city := some p.parentGuardianInfo.city
      state := some p.parentGuardianInfo.state
      country := some p.parentGuardianInfo.country
      zipcode := some p.parentGuardianInfo.zipCode
      phonetype := some p.parentGuardianInfo.phoneType
      phonenumber := some p.parentGuardianInfo.phoneNumber
      alternatephonetype := none
      alternatenumber := none
      countrycode := some "+1"
      alternatecountrycode := none }
    let db : Db := { db with
      guardians := db.guardians ++ [guardianRow]
      nextGuardianId := guardianId + 1 }
    if failsAt failAt .insertChildGuardian then .error .databaseError else
    let cgRow : ChildGuardianRow := {
      childid := childId
      guardianid := guardianId
      relationtype := p.parentGuardianInfo.relationship
      isprimary := true }
    let db : Db := { db with childGuardians := db.childGuardians ++ [cgRow] }
    if failsAt failAt .insertMedical then .error .databaseError else
    let medicalRow : MedicalContactRow := {
      medicalcontactid := db.nextMedicalId
      childid := childId
      physicianname := some (p.medicalInfo.physicianFirstName ++ " " ++
        p.medicalInfo.physicianLastName)
      middlename := none
      lastname := none
      addressline1 := some p.medicalInfo.address1
      addressline2 := some p.medicalInfo.address2
      city := some p.medicalInfo.city
      state := some p.medicalInfo.state
      country := some p.medicalInfo.country
      zipcode := some p.medicalInfo.zipCode
      phonetype := some p.medicalInfo.phoneType
      phonenumber := some p.medicalInfo.phoneNumber
      alternatephonetype := none
      alternatenumber := none
      countrycode := some "+1" }
    let db : Db := { db with
      medicalcontacts := db.medicalcontacts ++ [medicalRow]
      nextMedicalId := db.nextMedicalId + 1 }
    if failsAt failAt .insertCareFacility then .error .databaseError else
    let facilityRow : CareFacilityRow := {
      facilityid := db.nextFacilityId
      childid := childId
      emergencycontactname := some p.careFacilityInfo.emergencyContactName
      emergencyphonenumber := some p.careFacilityInfo.emergencyPhoneNumber
      addressline1 := some p.careFacilityInfo.address1
      addressline2 := some p.careFacilityInfo.address2
      city := some p.careFacilityInfo.city
      state := some p.careFacilityInfo.state
      country := some p.careFacilityInfo.country
      zipcode := some p.careFacilityInfo.zipCode
      phonetype := some p.careFacilityInfo.phoneType
      countrycode := some "+1" }
    let db : Db := { db with
      carefacilities := db.carefacilities ++ [facilityRow]
      nextFacilityId := db.nextFacilityId + 1 }
    if failsAt failAt .lookupProgram then .error .databaseError else
    let progOpt := db.programs.find? (fun r =>
      sqlLower r.programname == sqlLower (sqlTrim p.enrollmentProgramDetails.programType))
    if failsAt failAt .lookupRoom then .error .databaseError else
    let roomOpt := db.roomtypes.find? (fun r =>
      sqlLower r.roomtype == sqlLower (sqlTrim p.enrollmentProgramDetails.roomType))
    match progOpt, roomOpt with
    | none, _ => .error .invalidProgramOrRoom
    | _, none => .error .invalidProgramOrRoom
    | some prog, some room =>
      if failsAt failAt .lookupEnrollmentPlan then .error .databaseError else
      match db.enrollmentplans.find? (fun r =>
          r.programid == prog.programid && r.roomtypeid == room.roomtypeid) with
      | none => .error .noEnrollmentPlan
      | some eplan =>
        if failsAt failAt .lookupPaymentPlan then .error .databaseError else
        match db.paymentplans.find? (fun r =>
            sqlLower r.plantype == sqlLower (sqlTrim p.enrollmentProgramDetails.planType)) with
        | none => .error .invalidPaymentPlan
        | some pplan =>
          if failsAt failAt .insertRegistration then .error .databaseError else
          let regRow : RegistrationRow := {
            registrationid := db.nextRegistrationId
            childid := childId
            enrollmentplanid := eplan.enrollmentplanid
            status := "Pending Approval"
            paymentplanid := pplan.paymentplanid
            amount := 0 }
          let db : Db := { db with
            registrations := db.registrations ++ [regRow]
            nextRegistrationId := db.nextRegistrationId + 1 }
          if failsAt failAt .commit then .error .databaseError else
          .ok (childId, db)

/-- The name-based `createRegistration` handler at the committed-state level:
COMMIT publishes the written state, every failure path leaves the committed
state untouched (ROLLBACK in the catch block and in the explicit returns; the
user-not-found early return performs no writes before returning). -/
def createRegistration (db : Db) (p : PayloadByName)
    (failAt : Option CreateStep) : Except CreateError Nat × Db :=
  match createRegistrationRun db p failAt with
  | .error e => (.error e, db)
  | .ok (childId, db') => (.ok childId, db')

/-- Body of the id-based `createRegistration` (src/unnamed/part_009 lines
849-1089): the owning user is tolerated missing (null `parentuserid`), the
program/room/payment-plan selections are matched directly by id, and the
medical contact stores the physician name parts in separate columns. -/
def createRegistrationByIdRun (db : Db) (p : PayloadById)
    (failAt : Option CreateStep) : Except CreateError (Nat × Db) :=
  if failsAt failAt .userLookup then .error .databaseError else
  let userId := (db.users.find? (fun r =>
    sqlLower r.email == sqlLower p.email)).map (fun u => u.userid)
  if failsAt failAt .insertChild then .error .databaseError else
  let childId := db.nextChildId
  let childRow : ChildRow := {
    childid := childId
    firstname := some p.childInfo.firstName
    middlename := some p.childInfo.middleName
    lastname := some p.childInfo.lastName
    gender := some p.childInfo.gender
    dateofbirth := some p.childInfo.dateOfBirth
    placeofbirth := some p.childInfo.placeOfBirth
    parentuserid := userId }
  let db : Db := { db with
    children := db.children ++ [childRow]
    nextChildId := childId + 1 }
  if failsAt failAt .insertGuardian then .error .databaseError else
  let guardianId := db.nextGuardianId
  let guardianRow : GuardianRow := {
    guardianid := guardianId
    firstname := some p.parentGuardianInfo.firstName
    middlename := some p.parentGuardianInfo.middleName
    lastname := some p.parentGuardianInfo.lastName
    emailaddress := some p.parentGuardianInfo.email
    addressline1 := some p.parentGuardianInfo.address1
    addressline2 := some p.parentGuardianInfo.address2
    city := some p.parentGuardianInfo.city
    state := some p.parentGuardianInfo.state
    country := some p.parentGuardianInfo.country
    zipcode := some p.parentGuardianInfo.zipCode
    phonetype := some p.parentGuardianInfo.phoneType
    phonenumber := some p.parentGuardianInfo.phoneNumber
    alternatephonetype := orNull p.parentGuardianInfo.alternatePhoneType
    alternatenumber := orNull p.parentGuardianInfo.alternatePhoneNumber
    countrycode := some "+1"
    alternatecountrycode := none }
  let db : Db := { db with
    guardians := db.guardians ++ [guardianRow]
    nextGuardianId := guardianId + 1 }
  if failsAt failAt .insertChildGuardian then .error .databaseError else
  let cgRow : ChildGuardianRow := {
    childid := childId
    guardianid := guardianId
    relationtype := p.parentGuardianInfo.relationship
    isprimary := true }
  let db : Db := { db with childGuardians := db.childGuardians ++ [cgRow] }
  if failsAt failAt .insertMedical then .error .databaseError else
  let medicalRow : MedicalContactRow := {
    medicalcontactid := db.nextMedicalId
    childid := childId
    physicianname := orNullS p.medicalInfo.physicianFirstName
    middlename := orNull p.medicalInfo.physicianMiddleName
    lastname := orNullS p.medicalInfo.physicianLastName
    addressline1 := some p.medicalInfo.address1
    addressline2 := some p.medicalInfo.address2
    city := some p.medicalInfo.city
    state := some p.medicalInfo.state
    country := some p.medicalInfo.country
    zipcode := some p.medicalInfo.zipCode
    phonetype := some p.medicalInfo.phoneType
    phonenumber := some p.medicalInfo.phoneNumber
    alternatephonetype := orNull p.medicalInfo.alternatePhoneType
    alternatenumber := orNull p.medicalInfo.alternatePhoneNumber
    countrycode := some "+1" }
  let db : Db := { db with
    medicalcontacts := db.medicalcontacts ++ [medicalRow]
    nextMedicalId := db.nextMedicalId + 1 }
  if failsAt failAt .insertCareFacility then .error .databaseError else
  let facilityRow : CareFacilityRow := {
    facilityid := db.nextFacilityId
    childid := childId
    emergencycontactname := some p.careFacilityInfo.emergencyContactName
    emergencyphonenumber := some p.careFacilityInfo.emergencyPhoneNumber
    addressline1 := some p.careFacilityInfo.address1
    addressline2 := some p.careFacilityInfo.address2
    city := some p.careFacilityInfo.city
    state := some p.careFacilityInfo.state
    country := some p.careFacilityInfo.country
    zipcode := some p.careFacilityInfo.zipCode
    phonetype := some p.careFacilityInfo.phoneType
    countrycode := some "+1" }
  let db : Db := { db with
    carefacilities := db.carefacilities ++ [facilityRow]
    nextFacilityId := db.nextFacilityId + 1 }
  if failsAt failAt .lookupProgram then .error .databaseError else
  let progOpt := db.programs.find? (fun r =>
    r.programid == p.enrollmentProgramDetails.programType)
  if failsAt failAt .lookupRoom then .error .databaseError else
  let roomOpt := db.roomtypes.find? (fun r =>
    r.roomtypeid == p.enrollmentProgramDetails.roomType)
  match progOpt, roomOpt with
  | none, _ => .error .invalidProgramOrRoom
  | _, none => .error .invalidProgramOrRoom
  | some prog, some room =>
    if failsAt failAt .lookupEnrollmentPlan then .error .databaseError else
    match db.enrollmentplans.find? (fun r =>
        r.programid == prog.programid && r.roomtypeid == room.roomtypeid) with
    | none => .error .noEnrollmentPlan
    | some eplan =>
      if failsAt failAt .lookupPaymentPlan then .error .databaseError else
      match db.paymentplans.find? (fun r =>
          r.paymentplanid == p.enrollmentProgramDetails.planType) with
      | none => .error .invalidPaymentPlan
      | some pplan =>
        if failsAt failAt .insertRegistration then .error .databaseError else
        let regRow : RegistrationRow := {
          registrationid := db.nextRegistrationId
          childid := childId
          enrollmentplanid := eplan.enrollmentplanid
          status := "Pending Approval"
          paymentplanid := pplan.paymentplanid
          amount := 0 }
        let db : Db := { db with
          registrations := db.registrations ++ [regRow]
          nextRegistrationId := db.nextRegistrationId + 1 }
        if failsAt failAt .commit then .error .databaseError else
        .ok (childId, db)

/-- The id-based `createRegistration` at the committed-state level: every
failure path issues an explicit ROLLBACK (the three validation returns) or
reaches the catch block's ROLLBACK. -/
def createRegistrationById (db : Db) (p : PayloadById)
    (failAt : Option CreateStep) : Except CreateError Nat × Db :=
  match createRegistrationByIdRun db p failAt with
  | .error e => (.error e, db)
  | .ok (childId, db') => (.ok childId, db')

/-! ## HTTP status surfacing of the two create variants -/

structure HttpCreateResponse where
  status : Nat
  error : Option String
  childId : Option Nat
deriving DecidableEq, Repr

/-- HTTP layer of the name-based variant: the user-not-found early return
responds 400; every other failure is a thrown error that reaches the catch
block, which responds 500 with the error message. -/
def createRegistrationHttp (db : Db) (p : PayloadByName)
    (failAt : Option CreateStep) : HttpCreateResponse × Db :=
  match createRegistration db p failAt with
  | (.ok childId, db') =>
      ({ status := 201, error := none, childId := some childId }, db')
  | (.error .userNotFound, db') =>
      ({ status := 400, error := some (createErrorMessage .userNotFound),
         childId := none }, db')
  | (.error e, db') =>
      ({ status := 500, error := some (createErrorMessage e),
         childId := none }, db')

/-- HTTP layer of the id-based variant: the three lookup-resolution failures
are explicit `400` returns (after ROLLBACK); any other failure reaches the
catch block's 500. -/
def createRegistrationByIdHttp (db : Db) (p : PayloadById)
    (failAt : Option CreateStep) : HttpCreateResponse × Db :=
  match createRegistrationById db p failAt with
  | (.ok childId, db') =>
      ({ status := 201, error := none, childId := some childId }, db')
  | (.error .invalidProgramOrRoom, db') =>
      ({ status := 400, error := some (createErrorMessage .invalidProgramOrRoom),
         childId := none }, db')
  | (.error .noEnrollmentPlan, db') =>
      ({ status := 400, error := some (createErrorMessage .noEnrollmentPlan),
         childId := none }, db')
  | (.error .invalidPaymentPlan, db') =>
      ({ status := 400, error := some (createErrorMessage .invalidPaymentPlan),
         childId := none }, db')
  | (.error e, db') =>
      ({ status := 500, error := some (createErrorMessage e),
         childId := none }, db')

/-! ## Update transactions -/

/-- The database statements of the update transactions; a step can be forced
to fail to model a database error at that point. -/
inductive UpdateStep
  | updateChild
  | lookupGuardian
  | updateGuardian
  | updateChildGuardian
  | updateMedical
  | updateCareFacility
  | lookupProgram
  | lookupRoom
  | lookupEnrollmentPlan
  | lookupPaymentPlan
  | selectRegistration
  | writeRegistration
  | commit
deriving DecidableEq, Repr

inductive UpdateError
  | guardianNotFound
  | invalidProgramOrRoom
  | noEnrollmentPlan
  | invalidPaymentPlan
  | databaseError
deriving DecidableEq, Repr

def uFailsAt (failAt : Option UpdateStep) (s : UpdateStep) : Bool :=
  failAt == some s

/-- Body sections accepted by `updateRegistration`; each section is optional
and independently updatable. -/
structure UpdateBody where
  childInfo : Option ChildInfo
  parentGuardianInfo : Option ParentGuardianInfo
  medicalInfo : Option MedicalInfo
  careFacilityInfo : Option CareFacilityInfo
  enrollmentProgramDetails : Option EnrollmentSelectionById
deriving DecidableEq, Repr

/-- Body sections accepted by `updateStudent` (no enrollment section). -/
structure StudentUpdateBody where
  childInfo : Option ChildInfo
  parentGuardianInfo : Option ParentGuardianInfo
  medicalInfo : Option MedicalInfo
  careFacilityInfo : Option CareFacilityInfo
deriving DecidableEq, Repr

/-- SET clause of `UPDATE children` in `updateRegistration`. -/
def childSetClause (ci : ChildInfo) (c : ChildRow) : ChildRow :=
  { c with
    firstname := some ci.firstName
    middlename := some ci.middleName
    lastname := some ci.lastName
    gender := some ci.gender
    dateofbirth := some ci.dateOfBirth
    placeofbirth := some ci.placeOfBirth }

/-- SET clause of `UPDATE guardians` in `updateRegistration`. -/
def guardianSetClause (pg : ParentGuardianInfo) (g : GuardianRow) : GuardianRow :=
  { g with
    firstname := some pg.firstName
    middlename := some pg.middleName
    lastname := some pg.lastName
    emailaddress := some pg.email
    addressline1 := some pg.address1
    addressline2 := some pg.address2
    city := some pg.city
    state := some pg.state
    country := some pg.country
    zipcode := some pg.zipCode
    phonetype := some pg.phoneType
    phonenumber := some pg.phoneNumber
    alternatephonetype := orNull pg.alternatePhoneType
    alternatenumber := orNull pg.alternatePhoneNumber }

/-- SET clause of `UPDATE medicalcontacts` in `updateRegistration`. -/
def medicalSetClause (mi : MedicalInfo) (m : MedicalContactRow) : MedicalContactRow :=
  { m with
    physicianname := orNullS mi.physicianFirstName
    middlename := orNull mi.physicianMiddleName
    lastname := orNullS mi.physicianLastName
    addressline1 := some mi.address1
    addressline2 := some mi.address2
    city := some mi.city
    state := some mi.state
    country := some mi.country
    zipcode := some mi.zipCode
    phonetype := some mi.phoneType
    phonenumber := some mi.phoneNumber
    alternatephonetype := orNull mi.alternatePhoneType
    alternatenumber := orNull mi.alternatePhoneNumber }

/-- SET clause of `UPDATE carefacilities` in `updateRegistration`. -/
def careFacilitySetClause (cf : CareFacilityInfo) (r : CareFacilityRow) : CareFacilityRow :=
  { r with
    emergencycontactname := some cf.emergencyContactName
    emergencyphonenumber := some cf.emergencyPhoneNumber
    addressline1 := some cf.address1
    addressline2 := some cf.address2
    city := some cf.city
    state := some cf.state
    country := some cf.country
    zipcode := some cf.zipCode
    phonetype := some cf.phoneType }

/-- Child section of `updateRegistration`: UPDATE children WHERE childid. -/
def updateChildSection (childId : Nat) (ci : Option ChildInfo)
    (failAt : Option UpdateStep) (db : Db) : Except UpdateError Db :=
  match ci with
  | none => .ok db
  | some ci =>
    if uFailsAt failAt .updateChild then .error .databaseError else
    .ok { db with children := db.children.map (fun c =>
      if c.childid == childId then childSetClause ci c else c) }

/-- Guardian section of `updateRegistration`: resolve the guardian id through
the `child_guardians` join (first row, like `LIMIT 1`), fail when none
exists, update the guardian row, and update the join row's relation type when
a relationship value is provided. -/
def updateGuardianSection (childId : Nat) (pg : Option ParentGuardianInfo)
    (failAt : Option UpdateStep) (db : Db) : Except UpdateError Db :=
  match pg with
  | none => .ok db
  | some pg =>
    if uFailsAt failAt .lookupGuardian then .error .databaseError else
    match db.childGuardians.find? (fun cg =>
        cg.childid == childId &&
        db.guardians.any (fun g => g.guardianid == cg.guardianid)) with
    | none => .error .guardianNotFound
    | some cg =>
      if uFailsAt failAt .updateGuardian then .error .databaseError else
      let db : Db := { db with guardians := db.guardians.map (fun g =>
        if g.guardianid == cg.guardianid then guardianSetClause pg g else g) }
      if pg.relationship != "" then
        if uFailsAt failAt .updateChildGuardian then .error .databaseError else
        .ok { db with childGuardians := db.childGuardians.map (fun x =>
          if x.childid == childId && x.guardianid == cg.guardianid then
            { x with relationtype := pg.relationship }
          else x) }
      else .ok db

/-- Medical section of `updateRegistration`: UPDATE medicalcontacts WHERE
childid. -/
def updateMedicalSection (childId : Nat) (mi : Option MedicalInfo)
    (failAt : Option UpdateStep) (db : Db) : Except UpdateError Db :=
  match mi with
  | none => .ok db
  | some mi =>
    if uFailsAt failAt .updateMedical then .error .databaseError else
    .ok { db with medicalcontacts := db.medicalcontacts.map (fun m =>
      if m.childid == childId then medicalSetClause mi m else m) }

/-- Care-facility section of `updateRegistration`: UPDATE carefacilities
WHERE childid. -/
def updateCareFacilitySection (childId : Nat) (cf : Option CareFacilityInfo)
    (failAt : Option UpdateStep) (db : Db) : Except UpdateError Db :=
  match cf with
  | none => .ok db
  | some cf =>
    if uFailsAt failAt .updateCareFacility then .error .databaseError else
    .ok { db with carefacilities := db.carefacilities.map (fun r =>
      if r.childid == childId then careFacilitySetClause cf r else r) }

/-- Enrollment section of `updateRegistration`: re-validate program, room,
enrollment plan and payment plan by id exactly as in the id-based create,
then update the existing registration row or insert one if none exists. -/
def updateEnrollmentSection (childId : Nat) (e : Option EnrollmentSelectionById)
    (failAt : Option UpdateStep) (db : Db) : Except UpdateError Db :=
  match e with
  | none => .ok db
  | some e =>
    if uFailsAt failAt .lookupProgram then .error .databaseError else
    let progOpt := db.programs.find? (fun r => r.programid == e.programType)
    if uFailsAt failAt .lookupRoom then .error .databaseError else
    let roomOpt := db.roomtypes.find? (fun r => r.roomtypeid == e.roomType)
    match progOpt, roomOpt with
    | none, _ => .error .invalidProgramOrRoom
    | _, none => .error .invalidProgramOrRoom
    | some prog, some room =>
      if uFailsAt failAt .lookupEnrollmentPlan then .error .databaseError else
      match db.enrollmentplans.find? (fun r =>
          r.programid == prog.programid && r.roomtypeid == room.roomtypeid) with
      | none => .error .noEnrollmentPlan
      | some eplan =>
        if uFailsAt failAt .lookupPaymentPlan then .error .databaseError else
        match db.paymentplans.find? (fun r => r.paymentplanid == e.planType) with
        | none => .error .invalidPaymentPlan
        | some pplan =>
          if uFailsAt failAt .selectRegistration then .error .databaseError else
          let statusVal := (orNull e.status).getD "Pending Approval"
          match db.registrations.find? (fun r => r.childid == childId) with
          | some _ =>
            if uFailsAt failAt .writeRegistration then .error .databaseError else
            .ok { db with registrations := db.registrations.map (fun r =>
              if r.childid == childId then
                { r with
                  enrollmentplanid := eplan.enrollmentplanid
                  paymentplanid := pplan.paymentplanid
                  status := statusVal }
              else r) }
          | none =>
            if uFailsAt failAt .writeRegistration then .error .databaseError else
            let regRow : RegistrationRow := {
              registrationid := db.nextRegistrationId
              childid := childId
              enrollmentplanid := eplan.enrollmentplanid
              status := statusVal
              paymentplanid := pplan.paymentplanid
              amount := 0 }
            .ok { db with
              registrations := db.registrations ++ [regRow]
              nextRegistrationId := db.nextRegistrationId + 1 }

/-- Body of `updateRegistration` (src/unnamed/part_009 lines 1230-1457):
each section present in the body is applied in order inside one
transaction. -/
def updateRegistrationRun (db : Db) (childId : Nat) (b : UpdateBody)
    (failAt : Option UpdateStep) : Except UpdateError Db :=
  match updateChildSection childId b.childInfo failAt db with
  | .error e => .error e
  | .ok db =>
  match updateGuardianSection childId b.parentGuardianInfo failAt db with
  | .error e => .error e
  | .ok db =>
  match updateMedicalSection childId b.medicalInfo failAt db with
  | .error e => .error e
  | .ok db =>
  match updateCareFacilitySection childId b.careFacilityInfo failAt db with
  | .error e => .error e
  | .ok db =>
  match updateEnrollmentSection childId b.enrollmentProgramDetails failAt db with
  | .error e => .error e
  | .ok db =>
  if uFailsAt failAt .commit then .error .databaseError else
  .ok db

/-- `updateRegistration` at the committed-state level: COMMIT publishes the
updated state; every failure (guardian not found, enrollment validation,
database error) rolls the whole call back. -/
def updateRegistration (db : Db) (childId : Nat) (b : UpdateBody)
    (failAt : Option UpdateStep) : Except UpdateError Unit × Db :=
  match updateRegistrationRun db childId b failAt with
  | .error e => (.error e, db)
  | .ok db' => (.ok (), db')

/-- Physician-name handling of `updateStudent` (src/unnamed/part_010 lines
97-110): explicit name parts are preferred; when the first name is absent and
a full `physicianName` is present, it is trimmed and split on whitespace. -/
def physicianParts (mi : MedicalInfo) : Option String × Option String × Option String :=
  let first := orNullS mi.physicianFirstName
  let middle := orNull mi.physicianMiddleName
  let last := orNullS mi.physicianLastName
  match first, orNull mi.physicianName with
  | none, some full =>
    let parts := (full.trim.split (fun c => c.isWhitespace)).filter (fun s => s != "")
    let first := parts.head?
    if parts.length == 2 then (first, middle, parts[1]?)
    else if parts.length > 2 then
      (first, orNullS (String.intercalate " " ((parts.drop 1).dropLast)),
       parts.getLast?)
    else (first, middle, last)
  | _, _ => (first, middle, last)

/-- SET clause of `UPDATE children` in `updateStudent` (every value passes
through `|| null`). -/
def studentChildSetClause (ci : ChildInfo) (c : ChildRow) : ChildRow :=
  { c with
    firstname := orNullS ci.firstName
    middlename := orNullS ci.middleName
    lastname := orNullS ci.lastName
    gender := orNullS ci.gender
    dateofbirth := orNullS ci.dateOfBirth
    placeofbirth := orNullS ci.placeOfBirth }

/-- SET clause of `UPDATE guardians` in `updateStudent`. -/
def studentGuardianSetClause (pg : ParentGuardianInfo) (g : GuardianRow) : GuardianRow :=
  { g with
    firstname := orNullS pg.firstName
    middlename := orNullS pg.middleName
    lastname := orNullS pg.lastName
    emailaddress := orNullS pg.email
    addressline1 := orNullS pg.address1
    addressline2 := orNullS pg.address2
    city := orNullS pg.city
    state := orNullS pg.state
    country := orNullS pg.country
    zipcode := orNullS pg.zipCode
    phonetype := orNullS pg.phoneType
    phonenumber := orNullS pg.phoneNumber
    alternatephonetype := orNull pg.alternatePhoneType
    alternatenumber := orNull pg.alternatePhoneNumber
    countrycode := some ((orNull pg.countryCode).getD "+1")
    alternatecountrycode := orNull pg.alternateCountryCode }

/-- SET clause of `UPDATE medicalcontacts` in `updateStudent`. -/
def studentMedicalSetClause (mi : MedicalInfo) (m : MedicalContactRow) : MedicalContactRow :=
  let (first, middle, last) := physicianParts mi
  { m with
    physicianname := first
    middlename := middle
    lastname := last
    addressline1 := orNullS mi.address1
    addressline2 := orNullS mi.address2
    city := orNullS mi.city
    state := orNullS mi.state
    country := orNullS mi.country
    zipcode := orNullS mi.zipCode
    phonetype := orNullS mi.phoneType
    phonenumber := orNullS mi.phoneNumber
    countrycode := some ((orNull mi.countryCode).getD "+1") }

/-- SET clause of `UPDATE carefacilities` in `updateStudent`. -/
def studentCareFacilitySetClause (cf : CareFacilityInfo) (r : CareFacilityRow) : CareFacilityRow :=
  { r with
    emergencycontactname := orNullS cf.emergencyContactName
    emergencyphonenumber := orNullS cf.emergencyPhoneNumber
    addressline1 := orNullS cf.address1
    addressline2 := orNullS cf.address2
    city := orNullS cf.city
    state := orNullS cf.state
    country := orNullS cf.country
    zipcode := orNullS cf.zipCode
    phonetype := orNullS cf.phoneType
    countrycode := some ((orNull cf.countryCode).getD "+1") }

/-- Child section of `updateStudent`. -/
def studentChildSection (childId : Nat) (ci : Option ChildInfo)
    (failAt : Option UpdateStep) (db : Db) : Except UpdateError Db :=
  match ci with
  | none => .ok db
  | some ci =>
    if uFailsAt failAt .updateChild then .error .databaseError else
    .ok { db with children := db.children.map (fun c =>
      if c.childid == childId then studentChildSetClause ci c else c) }

/-- Guardian section of `updateStudent`: unlike `updateRegistration`, the
lookup requires `isprimary = true` and a missing mapping silently skips the
section instead of failing. -/
def studentGuardianSection (childId : Nat) (pg : Option ParentGuardianInfo)
    (failAt : Option UpdateStep) (db : Db) : Except UpdateError Db :=
  match pg with
  | none => .ok db
  | some pg =>
    if uFailsAt failAt .lookupGuardian then .error .databaseError else
    match db.childGuardians.find? (fun cg =>
        cg.childid == childId && cg.isprimary &&
        db.guardians.any (fun g => g.guardianid == cg.guardianid)) with
    | none => .ok db
    | some cg =>
      if uFailsAt failAt .updateGuardian then .error .databaseError else
      .ok { db with guardians := db.guardians.map (fun g =>
        if g.guardianid == cg.guardianid then studentGuardianSetClause pg g
        else g) }

/-- Medical section of `updateStudent`. -/
def studentMedicalSection (childId : Nat) (mi : Option MedicalInfo)
    (failAt : Option UpdateStep) (db : Db) : Except UpdateError Db :=
  match mi with
  | none => .ok db
  | some mi =>
    if uFailsAt failAt .updateMedical then .error .databaseError else
    .ok { db with medicalcontacts := db.medicalcontacts.map (fun m =>
      if m.childid == childId then studentMedicalSetClause mi m else m) }

/-- Care-facility section of `updateStudent`. -/
def studentCareFacilitySection (childId : Nat) (cf : Option CareFacilityInfo)
    (failAt : Option UpdateStep) (db : Db) : Except UpdateError Db :=
  match cf with
  | none => .ok db
  | some cf =>
    if uFailsAt failAt .updateCareFacility then .error .databaseError else
    .ok { db with carefacilities := db.carefacilities.map (fun r =>
      if r.childid == childId then studentCareFacilitySetClause cf r else r) }

/-- Body of `updateStudent` (src/unnamed/part_010 lines 8-182): same
transactional shape as `updateRegistration`, but the guardian section is
silently skipped when no primary guardian mapping exists, and there is no
enrollment section. -/
def updateStudentRun (db : Db) (childId : Nat) (b : StudentUpdateBody)
    (failAt : Option UpdateStep) : Except UpdateError Db :=
  match studentChildSection childId b.childInfo failAt db with
  | .error e => .error e
  | .ok db =>
  match studentGuardianSection childId b.parentGuardianInfo failAt db with
  | .error e => .error e
  | .ok db =>
  match studentMedicalSection childId b.medicalInfo failAt db with
  | .error e => .error e
  | .ok db =>
  match studentCareFacilitySection childId b.careFacilityInfo failAt db with
  | .error e => .error e
  | .ok db =>
  if uFailsAt failAt .commit then .error .databaseError else
  .ok db

/-- `updateStudent` at the committed-state level. -/
def updateStudent (db : Db) (childId : Nat) (b : StudentUpdateBody)
    (failAt : Option UpdateStep) : Except UpdateError Unit × Db :=
  match updateStudentRun db childId b failAt with
  | .error e => (.error e, db)
  | .ok db' => (.ok (), db')

/-! ## Student query component -/

/-- One flat row of the five-way LEFT JOIN used by `getAllStudents` and
`getStudentById` (src/unnamed/part_010): child columns plus the nullable
columns of the joined guardian, medical, care-facility and enrollment
tables. -/
structure JoinRow where
  childid : Nat
  childfirstname : Option String
  childmiddlename : Option String
  childlastname : Option String
  gender : Option String
  dateofbirth : Option String
  placeofbirth : Option String
  parentuserid : Option Nat
  guardianid : Option Nat
  parentfirstname : Option String
  parentmiddlename : Option String
  parentlastname : Option String
  parentemail : Option String
  parentaddressline1 : Option String
  parentaddressline2 : Option String
  parentcity : Option String
  parentstate : Option String
  parentcountry : Option String
  parentzipcode : Option String
  parentcountrycode : Option String
  parentphonetype : Option String
  parentphonenumber : Option String
  parentalternatecountrycode : Option String
  parentalternatephonetype : Option String
  parentalternatephonenumber : Option String
  parentrelationship : Option String
  medicalcontactid : Option Nat
  physicianfirstname : Option String
  physicianmiddlename : Option String
  physicianlastname : Option String
  medicaladdressline1 : Option String
  medicaladdressline2 : Option String
  medicalcity : Option String
  medicalstate : Option String
  medicalcountry : Option String
  medicalzipcode : Option String
  medicalcountrycode : Option String
  medicalphonetype : Option String
  medicalphonenumber : Option String
  facilityid : Option Nat
  emergencycontactname : Option String
  emergencyphonenumber : Option String
  carefacilityaddressline1 : Option String
  carefacilityaddressline2 : Option String
  carefacilitycity : Option String
  carefacilitystate : Option String
  carefacilitycountry : Option String
  carefacilityzipcode : Option String
  carefacilitycountrycode : Option String
  carefacilityphonetype : Option String
  registrationid : Option Nat
  enrollmentplanid : Option Nat
  enrollmentstatus : Option String
  paymentplanid : Option Nat
  registrationamount : Option Nat
  programtype : Option String
  roomtype : Option String
  plantype : Option String

/-- A join row carrying only the child columns, with every joined column
NULL (the row shape before any LEFT JOIN partner matches). -/
def childOnlyJoinRow (c : ChildRow) : JoinRow :=
  { childid := c.childid
    childfirstname := c.firstname
    childmiddlename := c.middlename
    childlastname := c.lastname
    gender := c.gender
    dateofbirth := c.dateofbirth
    placeofbirth := c.placeofbirth
    parentuserid := c.parentuserid
    guardianid := none, parentfirstname := none, parentmiddlename := none
    parentlastname := none, parentemail := none, parentaddressline1 := none
    parentaddressline2 := none, parentcity := none, parentstate := none
    parentcountry := none, parentzipcode := none, parentcountrycode := none
    parentphonetype := none, parentphonenumber := none
    parentalternatecountrycode := none, parentalternatephonetype := none
    parentalternatephonenumber := none, parentrelationship := none
    medicalcontactid := none, physicianfirstname := none
    physicianmiddlename := none, physicianlastname := none
    medicaladdressline1 := none, medicaladdressline2 := none
    medicalcity := none, medicalstate := none, medicalcountry := none
    medicalzipcode := none, medicalcountrycode := none
    medicalphonetype := none, medicalphonenumber := none
    facilityid := none, emergencycontactname := none
    emergencyphonenumber := none, carefacilityaddressline1 := none
    carefacilityaddressline2 := none, carefacilitycity := none
    carefacilitystate := none, carefacilitycountry := none
    carefacilityzipcode := none, carefacilitycountrycode := none
    carefacilityphonetype := none, registrationid := none
    enrollmentplanid := none, enrollmentstatus := none, paymentplanid := none
    registrationamount := none, programtype := none, roomtype := none
    plantype := none }

/-- Guardian columns of the SELECT list (`-- Parent/Guardian Information`). -/
def withGuardianCols (cg : Option ChildGuardianRow) (g : Option GuardianRow)
    (row : JoinRow) : JoinRow :=
  { row with
    guardianid := g.map (fun x => x.guardianid)
    parentfirstname := g.bind (fun x => x.firstname)
    parentmiddlename := g.bind (fun x => x.middlename)
    parentlastname := g.bind (fun x => x.lastname)
    parentemail := g.bind (fun x => x.emailaddress)
    parentaddressline1 := g.bind (fun x => x.addressline1)
    parentaddressline2 := g.bind (fun x => x.addressline2)
    parentcity := g.bind (fun x => x.city)
    parentstate := g.bind (fun x => x.state)
    parentcountry := g.bind (fun x => x.country)
    parentzipcode := g.bind (fun x => x.zipcode)
    parentcountrycode := g.bind (fun x => x.countrycode)
    parentphonetype := g.bind (fun x => x.phonetype)
    parentphonenumber := g.bind (fun x => x.phonenumber)
    parentalternatecountrycode := g.bind (fun x => x.alternatecountrycode)
    parentalternatephonetype := g.bind (fun x => x.alternatephonetype)
    parentalternatephonenumber := g.bind (fun x => x.alternatenumber)
    parentrelationship := cg.map (fun x => x.relationtype) }

/-- Medical columns of the SELECT list (`-- Medical Information`); note that
the `physicianname` column is aliased to `physicianFirstName`. -/
def withMedicalCols (m : Option MedicalContactRow) (row : JoinRow) : JoinRow :=
  { row with
    medicalcontactid := m.map (fun x => x.medicalcontactid)
    physicianfirstname := m.bind (fun x => x.physicianname)
    physicianmiddlename := m.bind (fun x => x.middlename)
    physicianlastname := m.bind (fun x => x.lastname)
    medicaladdressline1 := m.bind (fun x => x.addressline1)
    medicaladdressline2 := m.bind (fun x => x.addressline2)
    medicalcity := m.bind (fun x => x.city)
    medicalstate := m.bind (fun x => x.state)
    medicalcountry := m.bind (fun x => x.country)
    medicalzipcode := m.bind (fun x => x.zipcode)
    medicalcountrycode := m.bind (fun x => x.countrycode)
    medicalphonetype := m.bind (fun x => x.phonetype)
    medicalphonenumber := m.bind (fun x => x.phonenumber) }

/-- Care-facility columns of the SELECT list (`-- Care Facility Information`). -/
def withCareFacilityCols (cf : Option CareFacilityRow) (row : JoinRow) : JoinRow :=
  { row with
    facilityid := cf.map (fun x => x.facilityid)
    emergencycontactname := cf.bind (fun x => x.emergencycontactname)
    emergencyphonenumber := cf.bind (fun x => x.emergencyphonenumber)
    carefacilityaddressline1 := cf.bind (fun x => x.addressline1)
    carefacilityaddressline2 := cf.bind (fun x => x.addressline2)
    carefacilitycity := cf.bind (fun x => x.city)
    carefacilitystate := cf.bind (fun x => x.state)
    carefacilitycountry := cf.bind (fun x => x.country)
    carefacilityzipcode := cf.bind (fun x => x.zipcode)
    carefacilitycountrycode := cf.bind (fun x => x.countrycode)
    carefacilityphonetype := cf.bind (fun x => x.phonetype) }

/-- Enrollment columns of the SELECT list (`-- Enrollment Information`). -/
def withEnrollmentCols (r : Option RegistrationRow) (prog : Option ProgramRow)
    (room : Option RoomTypeRow) (pln : Option PaymentPlanRow)
    (row : JoinRow) : JoinRow :=
  { row with
    registrationid := r.map (fun x => x.registrationid)
    enrollmentplanid := r.map (fun x => x.enrollmentplanid)
    enrollmentstatus := r.map (fun x => x.status)
    paymentplanid := r.map (fun x => x.paymentplanid)
    registrationamount := r.map (fun x => x.amount)
    programtype := prog.map (fun x => x.programname)
    roomtype := room.map (fun x => x.roomtype)
    plantype := pln.map (fun x => x.plantype) }

/-- The LEFT JOIN chain of the student query evaluated for one child row:
first matching primary `child_guardians` row and its guardian, first matching
medical/care-facility/registration row, then the enrollment-plan, program,
room-type and payment-plan lookups hanging off the registration. -/
def joinRowFor (db : Db) (c : ChildRow) : JoinRow :=
  let cg := db.childGuardians.find? (fun x => x.childid == c.childid && x.isprimary)
  let g := cg.bind (fun cg => db.guardians.find? (fun x => x.guardianid == cg.guardianid))
  let m := db.medicalcontacts.find? (fun x => x.childid == c.childid)
  let cf := db.carefacilities.find? (fun x => x.childid == c.childid)
  let r := db.registrations.find? (fun x => x.childid == c.childid)
  let ep := r.bind (fun r => db.enrollmentplans.find? (fun x =>
    x.enrollmentplanid == r.enrollmentplanid))
  let prog := ep.bind (fun ep => db.programs.find? (fun x => x.programid == ep.programid))
  let room := ep.bind (fun ep => db.roomtypes.find? (fun x => x.roomtypeid == ep.roomtypeid))
  let pln := r.bind (fun r => db.paymentplans.find? (fun x =>
    x.paymentplanid == r.paymentplanid))
  withEnrollmentCols r prog room pln
    (withCareFacilityCols cf
      (withMedicalCols m
        (withGuardianCols cg g (childOnlyJoinRow c))))

/-- JS `[a, b, c].filter(Boolean).join(" ")`: drop nulls and empty strings,
join the rest with spaces. -/
def joinNameParts (parts : List (Option String)) : String :=
  String.intercalate " " ((parts.filterMap id).filter (fun s => s != ""))

structure StudentChildInfo where
  childId : Nat
  firstName : Option String
  middleName : Option String
  lastName : Option String
  gender : Option String
  dateOfBirth : Option String
  placeOfBirth : Option String

structure StudentParentGuardianInfo where
  guardianId : Option Nat
  firstName : Option String
  middleName : Option String
  lastName : Option String
  email : Option String
  address1 : Option String
  address2 : Option String
  city : Option String
  state : Option String
  country : Option String
  zipCode : Option String
  countryCode : Option String
  phoneType : Option String
  phoneNumber : Option String
  alternateCountryCode : Option String
  alternatePhoneType : Option String
  alternatePhoneNumber : Option String
  relationship : Option String

structure StudentMedicalInfo where
  medicalContactId : Option Nat
  physicianFirstName : Option String
  physicianMiddleName : Option String
  physicianLastName : Option String
  physicianName : String
  address1 : Option String
  address2 : Option String
  city : Option String
  state : Option String
  country : Option String
  zipCode : Option String
  countryCode : Option String
  phoneType : Option String
  phoneNumber : Option String

structure StudentCareFacilityInfo where
  facilityId : Option Nat
  emergencyContactName : Option String
  emergencyPhoneNumber : Option String
  address1 : Option String
  address2 : Option String
  city : Option String
  state : Option String
  country : Option String
  zipCode : Option String
  countryCode : Option String
  phoneType : Option String

structure StudentEnrollmentProgramDetails where
  registrationId : Option Nat
  enrollmentPlanId : Option Nat
  status : Option String
  paymentPlanId : Option Nat
  amount : Option Nat
  programType : Option String
  roomType : Option String
  planType : Option String

/-- The nested student object produced by the Student Query component. -/
structure Student where
  childInfo : StudentChildInfo
  parentGuardianInfo : StudentParentGuardianInfo
  medicalInfo : StudentMedicalInfo
  careFacilityInfo : StudentCareFacilityInfo
  enrollmentProgramDetails : StudentEnrollmentProgramDetails

/-- Nesting of one flat join row into the student object (the transform in
`getAllStudents`/`getStudentById`). -/
def studentOfJoinRow (row : JoinRow) : Student :=
  { childInfo := {
      childId := row.childid
      firstName := row.childfirstname
      middleName := row.childmiddlename
      lastName := row.childlastname
      gender := row.gender
      dateOfBirth := row.dateofbirth
      placeOfBirth := row.placeofbirth }
    parentGuardianInfo := {
      guardianId := row.guardianid
      firstName := row.parentfirstname
      middleName := row.parentmiddlename
      lastName := row.parentlastname
      email := row.parentemail
      address1 := row.parentaddressline1
      address2 := row.parentaddressline2
      city := row.parentcity
      state := row.parentstate
      country := row.parentcountry
      zipCode := row.parentzipcode
      countryCode := row.parentcountrycode
      phoneType := row.parentphonetype
      phoneNumber := row.parentphonenumber
      alternateCountryCode := row.parentalternatecountrycode
      alternatePhoneType := row.parentalternatephonetype
      alternatePhoneNumber := row.parentalternatephonenumber
      relationship := row.parentrelationship }
    medicalInfo := {
      medicalContactId := row.medicalcontactid
      physicianFirstName := row.physicianfirstname
      physicianMiddleName := row.physicianmiddlename
      physicianLastName := row.physicianlastname
      physicianName := joinNameParts
        [row.physicianfirstname, row.physicianmiddlename, row.physicianlastname]
      address1 := row.medicaladdressline1
      address2 := row.medicaladdressline2
      city := row.medicalcity
      state := row.medicalstate
      country := row.medicalcountry
      zipCode := row.medicalzipcode
      countryCode := row.medicalcountrycode
      phoneType := row.medicalphonetype
      phoneNumber := row.medicalphonenumber }
    careFacilityInfo := {
      facilityId := row.facilityid
      emergencyContactName := row.emergencycontactname
      emergencyPhoneNumber := row.emergencyphonenumber
      address1 := row.carefacilityaddressline1
      address2 := row.carefacilityaddressline2
      city := row.carefacilitycity
      state := row.carefacilitystate
      country := row.carefacilitycountry
      zipCode := row.carefacilityzipcode
      countryCode := row.carefacilitycountrycode
      phoneType := row.carefacilityphonetype }
    enrollmentProgramDetails := {
      registrationId := row.registrationid
      enrollmentPlanId := row.enrollmentplanid
      status := row.enrollmentstatus
      paymentPlanId := row.paymentplanid
      amount := row.registrationamount
      programType := row.programtype
      roomType := row.roomtype
      planType := row.plantype } }

/-- `getStudentById` (src/unnamed/part_010 lines 395-582): 404 when no child
row matches the requested id, otherwise 200 with the nested student built
from the first joined row. -/
def getStudentById (db : Db) (childId : Nat) : Nat × Option Student :=
  match db.children.find? (fun c => c.childid == childId) with
  | none => (404, none)
  | some c => (200, some (studentOfJoinRow (joinRowFor db c)))

/-- Result row of the early `getRegistrationByChildId` variant
(src/unnamed/part_009 lines 260-275): `SELECT *` over children LEFT JOIN
medicalcontacts LEFT JOIN carefacilities. -/
structure RegJoinRow where
  child : ChildRow
  medical : Option MedicalContactRow
  carefacility : Option CareFacilityRow

/-- The early `getRegistrationByChildId`: it always responds 200 —
`res.json(result.rows[0])` sends an undefined body when no row matched; there
is no 404 branch in this variant. -/
def getRegistrationByChildId (db : Db) (childId : Nat) : Nat × Option RegJoinRow :=
  match db.children.find? (fun c => c.childid == childId) with
  | none => (200, none)
  | some c =>
    (200, some {
      child := c
      medical := db.medicalcontacts.find? (fun x => x.childid == c.childid)
      carefacility := db.carefacilities.find? (fun x => x.childid == c.childid) })

/-- The grouping loop of `getAllStudents` (src/unnamed/part_010 lines
286-373): walk the joined rows in order, keep a row only if its `childid` has
not been seen yet. -/
def dedupFirst : List JoinRow → List Nat → List JoinRow
  | [], _ => []
  | r :: rs, seen =>
    if r.childid ∈ seen then dedupFirst rs seen
    else r :: dedupFirst rs (r.childid :: seen)

/-- The get-all-students response body.  `totalCount` is `none` when the
field is absent from the JSON response, which happens on the handler's
empty-result early return. -/
structure AllStudentsResponse where
  totalCount : Option Nat
  data : List Student

/-- `getAllStudents` on the rows returned by its query (the query orders rows
by `childid DESC`).  An empty result set takes the early return at
src/unnamed/part_010 lines 277-283, which responds `{ success, message,
data: [] }` without a `totalCount` field; otherwise the handler groups the
rows by child id keeping the first row of each child and reports
`students.length` as `totalCount`. -/
def getAllStudents (rows : List JoinRow) : AllStudentsResponse :=
  if rows.isEmpty then
    { totalCount := none, data := [] }
  else
    let students := (dedupFirst rows []).map studentOfJoinRow
    { totalCount := some students.length, data := students }

/-- The SERIAL id columns are fresh: no existing row already carries the id
the next insert will be assigned.  This always holds of a real database
(SERIAL values are never reused) and is the hypothesis under which a created
record can be read back by its returned id. -/
def Db.freshIds (db : Db) : Bool :=
  db.children.all (fun c => c.childid != db.nextChildId) &&
  db.childGuardians.all (fun cg => cg.childid != db.nextChildId) &&
  db.medicalcontacts.all (fun m => m.childid != db.nextChildId) &&
  db.carefacilities.all (fun cf => cf.childid != db.nextChildId) &&
  db.registrations.all (fun r => r.childid != db.nextChildId) &&
  db.guardians.all (fun g => g.guardianid != db.nextGuardianId)

/-! ## Login -/

inductive LoginResponse
  | badRequest (message : String)
  | unauthorized (message : String)
  | ok (userid : Nat) (email : String) (roleid : Nat)
deriving DecidableEq, Repr

def LoginResponse.status : LoginResponse → Nat
  | .badRequest _ => 400
  | .unauthorized _ => 401
  | .ok _ _ _ => 200

/-- `login` (src/unnamed/part_009 lines 1468-1525): missing credentials give
400; an unknown email or a failed password comparison give 401; otherwise the
user's id, email and role are returned with 200.  The bcrypt comparison is an
external collaborator, passed in as `checkPw`. -/
def login (db : Db) (checkPw : String → String → Bool)
    (email password : String) : LoginResponse :=
  if email = "" ∨ password = "" then
    .badRequest "Email and password are required"
  else
    match db.users.find? (fun u => u.email == email) with
    | none => .unauthorized "Invalid email or password"
    | some u =>
      if checkPw password u.password then .ok u.userid u.email u.roleid
      else .unauthorized "Invalid email or password"

/-! ## Sample data for concrete witnesses -/

def sampleChildInfo : ChildInfo :=
  { firstName := "Ada", middleName := "M", lastName := "Lovelace"
    gender := "F", dateOfBirth := "2020-01-01", placeOfBirth := "London" }

def sampleParentGuardianInfo : ParentGuardianInfo :=
  { firstName := "Grace", middleName := "B", lastName := "Hopper"
    email := "grace@example.com", address1 := "1 Main St", address2 := ""
    city := "NYC", state := "NY", country := "USA", zipCode := "10001"
    phoneType := "Mobile", phoneNumber := "5551234567"
    relationship := "Mother", alternatePhoneType := none
    alternatePhoneNumber := none, countryCode := none
    alternateCountryCode := none }

def sampleMedicalInfo : MedicalInfo :=
  { physicianFirstName := "John", physicianMiddleName := none
    physicianLastName := "Smith", physicianName := none
    address1 := "2 Care Rd", address2 := "", city := "NYC", state := "NY"
    country := "USA", zipCode := "10001", phoneType := "Work"
    phoneNumber := "5559876543", alternatePhoneType := none
    alternatePhoneNumber := none, countryCode := none }

def sampleCareFacilityInfo : CareFacilityInfo :=
  { emergencyContactName := "Max Kin", emergencyPhoneNumber := "5550001111"
    address1 := "3 Facility Ave", address2 := "", city := "NYC", state := "NY"
    country := "USA", zipCode := "10001", phoneType := "Home"
    countryCode := none }

def samplePayload : PayloadByName :=
  { email := "user@example.com"
    childInfo := sampleChildInfo
    parentGuardianInfo := sampleParentGuardianInfo
    medicalInfo := sampleMedicalInfo
    careFacilityInfo := sampleCareFacilityInfo
    enrollmentProgramDetails :=
      { programType := "Full Time", roomType := "Infant", planType := "Monthly" } }

/-- `samplePayload` with a guardian alternate phone submitted, to exercise
the columns the name-based create never writes. -/
def samplePayloadAlt : PayloadByName :=
  { samplePayload with parentGuardianInfo :=
      { sampleParentGuardianInfo with
        alternatePhoneType := some "Home"
        alternatePhoneNumber := some "5550009999" } }

def samplePayloadById : PayloadById :=
  { email := "user@example.com"
    childInfo := sampleChildInfo
    parentGuardianInfo := sampleParentGuardianInfo
    medicalInfo := sampleMedicalInfo
    careFacilityInfo := sampleCareFacilityInfo
    enrollmentProgramDetails :=
      { programType := 1, roomType := 1, planType := 1, status := none } }

def sampleDb : Db :=
  { users := [{ userid := 1, email := "user@example.com", password := "hash", roleid := 2 }]
    children := [], guardians := [], childGuardians := []
    medicalcontacts := [], carefacilities := []
    programs := [{ programid := 1, programname := "Full Time" }]
    roomtypes := [{ roomtypeid := 1, roomtype := "Infant" }]
    paymentplans := [{ paymentplanid := 1, plantype := "Monthly" }]
    enrollmentplans := [{ enrollmentplanid := 7, programid := 1, roomtypeid := 1 }]
    registrations := []
    nextChildId := 1, nextGuardianId := 1, nextMedicalId := 1
    nextFacilityId := 1, nextRegistrationId := 1 }

def sampleChildRow : ChildRow :=
  { childid := 1, firstname := some "Ada", middlename := some "M"
    lastname := some "Lovelace", gender := some "F"
    dateofbirth := some "2020-01-01", placeofbirth := some "London"
    parentuserid := some 1 }

/-- `sampleDb` with one existing child row. -/
def sampleDbWithChild : Db :=
  { sampleDb with children := [sampleChildRow], nextChildId := 2 }

/-- A password checker for concrete login runs (stands in for
`bcrypt.compare`). -/
def sampleCheckPw (password hashed : String) : Bool :=
  password == "secret" && hashed == "hash"

/-- `sampleDb` with no enrollment-plan mapping rows. -/
def sampleDbNoMapping : Db := { sampleDb with enrollmentplans := [] }

/-- `sampleDb` with no payment-plan rows. -/
def sampleDbNoPay : Db := { sampleDb with paymentplans := [] }

def sampleChildRow2 : ChildRow := { sampleChildRow with childid := 2 }

/-- Three concrete join rows, childid 2 twice (two guardian mappings) then
childid 1. -/
def sampleRows : List JoinRow :=
  [{ childOnlyJoinRow sampleChildRow2 with parentrelationship := some "Mother" },
   { childOnlyJoinRow sampleChildRow2 with parentrelationship := some "Father" },
   childOnlyJoinRow sampleChildRow]

/-! ## Claim theorems -/

/-- C1: every create-registration call is all-or-nothing — whenever any step
after BEGIN fails (user lookup, any of the five inserts, any lookup
resolution, the registration insert, or the commit itself), the committed
database state is exactly the state before the call, so no partial child
record remains. -/
theorem createRegistration_atomic (db : Db) (p : PayloadByName)
    (failAt : Option CreateStep) (e : CreateError)
    (h : (createRegistration db p failAt).1 = .error e) :
    (createRegistration db p failAt).2 = db := by
  unfold createRegistration at h ⊢
  cases hrun : createRegistrationRun db p failAt with
  | error e' => simp [hrun]
  | ok v =>
    obtain ⟨cid, db'⟩ := v
    rw [hrun] at h
    simp at h

/-- Witness for C1: forcing the child insert to fail on a concrete database
leaves the database unchanged. -/
theorem createRegistration_atomic_witness :
    (createRegistration sampleDb samplePayload (some .insertChild)).2 = sampleDb :=
  createRegistration_atomic sampleDb samplePayload (some .insertChild)
    .databaseError rfl

/-- C5: an update call whose body contains only the `medicalInfo` section
leaves the children, guardians, child-guardian mappings, care facilities and
registrations tables untouched and rewrites exactly the medical-contact rows
of that child — in both `updateRegistration` and `updateStudent`. -/
theorem update_medicalInfo_only_isolated (db : Db) (cid : Nat) (mi : MedicalInfo) :
    (let r := updateRegistration db cid
      { childInfo := none, parentGuardianInfo := none, medicalInfo := some mi
        careFacilityInfo := none, enrollmentProgramDetails := none } none
     r.2.children = db.children ∧
     r.2.guardians = db.guardians ∧
     r.2.childGuardians = db.childGuardians ∧
     r.2.carefacilities = db.carefacilities ∧
     r.2.registrations = db.registrations ∧
     r.2.medicalcontacts = db.medicalcontacts.map (fun m =>
       if m.childid == cid then medicalSetClause mi m else m)) ∧
    (let r := updateStudent db cid
      { childInfo := none, parentGuardianInfo := none, medicalInfo := some mi
        careFacilityInfo := none } none
     r.2.children = db.children ∧
     r.2.guardians = db.guardians ∧
     r.2.childGuardians = db.childGuardians ∧
     r.2.carefacilities = db.carefacilities ∧
     r.2.registrations = db.registrations ∧
     r.2.medicalcontacts = db.medicalcontacts.map (fun m =>
       if m.childid == cid then studentMedicalSetClause mi m else m)) :=
  ⟨⟨rfl, rfl, rfl, rfl, rfl, rfl⟩, ⟨rfl, rfl, rfl, rfl, rfl, rfl⟩⟩

/-- C6: every section update of one update call runs inside a single
transaction — any failure during the call (in `updateRegistration` or
`updateStudent`) rolls back every update of that call, leaving the prior
committed state unchanged. -/
theorem update_transaction_rollback (db : Db) (cid : Nat) (b : UpdateBody)
    (sb : StudentUpdateBody) (failAt failAt2 : Option UpdateStep)
    (e e2 : UpdateError) :
    ((updateRegistration db cid b failAt).1 = .error e →
      (updateRegistration db cid b failAt).2 = db) ∧
    ((updateStudent db cid sb failAt2).1 = .error e2 →
      (updateStudent db cid sb failAt2).2 = db) := by
  constructor
  · intro h
    unfold updateRegistration at h ⊢
    cases hrun : updateRegistrationRun db cid b failAt with
    | error e' => simp [hrun]
    | ok db' => rw [hrun] at h; simp at h
  · intro h
    unfold updateStudent at h ⊢
    cases hrun : updateStudentRun db cid sb failAt2 with
    | error e' => simp [hrun]
    | ok db' => rw [hrun] at h; simp at h

/-- Witness for C6: forcing the medical UPDATE (respectively the COMMIT) to
fail on a concrete call leaves the database unchanged in both update
handlers. -/
theorem update_transaction_rollback_witness :
    (updateRegistration sampleDb 1
      { childInfo := none, parentGuardianInfo := none
        medicalInfo := some sampleMedicalInfo, careFacilityInfo := none
        enrollmentProgramDetails := none } (some .updateMedical)).2 = sampleDb ∧
    (updateStudent sampleDb 1
      { childInfo := none, parentGuardianInfo := none
        medicalInfo := some sampleMedicalInfo
        careFacilityInfo := none } (some .commit)).2 = sampleDb :=
  ⟨(update_transaction_rollback sampleDb 1
      { childInfo := none, parentGuardianInfo := none
        medicalInfo := some sampleMedicalInfo, careFacilityInfo := none
        enrollmentProgramDetails := none }
      { childInfo := none, parentGuardianInfo := none
        medicalInfo := some sampleMedicalInfo, careFacilityInfo := none }
      (some .updateMedical) (some .commit)
      .databaseError .databaseError).1 rfl,
   (update_transaction_rollback sampleDb 1
      { childInfo := none, parentGuardianInfo := none
        medicalInfo := some sampleMedicalInfo, careFacilityInfo := none
        enrollmentProgramDetails := none }
      { childInfo := none, parentGuardianInfo := none
        medicalInfo := some sampleMedicalInfo, careFacilityInfo := none }
      (some .updateMedical) (some .commit)
      .databaseError .databaseError).2 rfl⟩

/-- C7 (amended part): `getStudentById` responds 404 with no student object
when no child row carries the requested id, and 200 with exactly one nested
student object when one does. -/
theorem getStudentById_notFound_or_found (db : Db) (cid : Nat) :
    ((∀ c ∈ db.children, c.childid ≠ cid) → getStudentById db cid = (404, none)) ∧
    (∀ c ∈ db.children, c.childid = cid →
      ∃ s, getStudentById db cid = (200, some s)) := by
  constructor
  · intro h
    unfold getStudentById
    rw [List.find?_eq_none.mpr]
    intro x hx
    simp [h x hx]
  · intro c hc hcid
    unfold getStudentById
    cases hfind : db.children.find? (fun c => c.childid == cid) with
    | none =>
      exfalso
      have := List.find?_eq_none.mp hfind c hc
      simp [hcid] at this
    | some c' => exact ⟨_, rfl⟩

/-- Witness for the amended C7: on a concrete database the missing child id
gives 404, and an existing child id gives 200 with a student object. -/
theorem getStudentById_notFound_or_found_witness :
    getStudentById sampleDb 1 = (404, none) ∧
    ∃ s, getStudentById sampleDbWithChild 1 = (200, some s) :=
  ⟨(getStudentById_notFound_or_found sampleDb 1).1
      (by intro c hc; simp [sampleDb] at hc),
   (getStudentById_notFound_or_found sampleDbWithChild 1).2 sampleChildRow
      (by simp [sampleDbWithChild]) rfl⟩

/-- C7 (counterexample): the cited `getRegistrationByChildId` variant
responds 200 with an undefined body — not 404 — when the requested child id
does not exist. -/
theorem getRegistrationByChildId_missing_child_200 :
    getRegistrationByChildId sampleDb 1 = (200, none) ∧
    (getRegistrationByChildId sampleDb 1).1 ≠ 404 :=
  ⟨rfl, by decide⟩

/-- C9: a login request carrying an email and a password succeeds with 200
and `{ userid, email, roleid }` exactly when a user row with that email
exists and the password check accepts its stored hash; otherwise — unknown
email or failed check alike — it responds 401. -/
theorem login_200_iff_valid (db : Db) (checkPw : String → String → Bool)
    (email password : String) (hemail : email ≠ "") (hpw : password ≠ "")
    (huniq : db.users.Pairwise (fun a b => a.email ≠ b.email)) :
    ((∃ u ∈ db.users, u.email = email ∧ checkPw password u.password = true) →
      ∃ u ∈ db.users, u.email = email ∧ checkPw password u.password = true ∧
        login db checkPw email password = .ok u.userid u.email u.roleid ∧
        (login db checkPw email password).status = 200) ∧
    ((¬ ∃ u ∈ db.users, u.email = email ∧ checkPw password u.password = true) →
      login db checkPw email password = .unauthorized "Invalid email or password" ∧
      (login db checkPw email password).status = 401) := by
  unfold login
  rw [if_neg (by simp [hemail, hpw])]
  cases hfind : db.users.find? (fun u => u.email == email) with
  | none =>
    have hnone := List.find?_eq_none.mp hfind
    constructor
    · rintro ⟨u, hu, he, _⟩
      exact absurd (by simp [he] : (u.email == email) = true) (hnone u hu)
    · intro _
      exact ⟨rfl, rfl⟩
  | some u =>
    have hmem : u ∈ db.users := List.mem_of_find?_eq_some hfind
    have heq : u.email = email := by
      have := List.find?_some hfind
      simpa using this
    by_cases hchk : checkPw password u.password = true
    · constructor
      · intro _
        exact ⟨u, hmem, heq, hchk, by simp [hchk],
          by simp [hchk, LoginResponse.status]⟩
      · rintro hno
        exact absurd ⟨u, hmem, heq, hchk⟩ hno
    · constructor
      · rintro ⟨u', hu', he', hchk'⟩
        have huu : u' = u := by
          by_contra hne
          exact (List.Pairwise.forall (fun _ _ h => h.symm) huniq
            hu' hmem hne) (he'.trans heq.symm)
        rw [huu] at hchk'
        exact absurd hchk' hchk
      · intro _
        exact ⟨by simp [hchk], by simp [hchk, LoginResponse.status]⟩

/-- Witness for C9: on a concrete user table the matching email+password pair
logs in with 200, and a wrong password gives 401. -/
theorem login_200_iff_valid_witness :
    (∃ u ∈ sampleDb.users, u.email = "user@example.com" ∧
      sampleCheckPw "secret" u.password = true ∧
      login sampleDb sampleCheckPw "user@example.com" "secret" =
        .ok u.userid u.email u.roleid ∧
      (login sampleDb sampleCheckPw "user@example.com" "secret").status = 200) ∧
    (login sampleDb sampleCheckPw "user@example.com" "wrong" =
      .unauthorized "Invalid email or password" ∧
     (login sampleDb sampleCheckPw "user@example.com" "wrong").status = 401) :=
  ⟨(login_200_iff_valid sampleDb sampleCheckPw "user@example.com" "secret"
      (by decide) (by decide) (by simp [sampleDb])).1
      ⟨{ userid := 1, email := "user@example.com", password := "hash", roleid := 2 },
        by simp [sampleDb], rfl, rfl⟩,
   (login_200_iff_valid sampleDb sampleCheckPw "user@example.com" "wrong"
      (by decide) (by decide) (by simp [sampleDb])).2
      (by
        rintro ⟨u, hu, he, hchk⟩
        simp [sampleDb] at hu
        rw [hu] at hchk
        simp [sampleCheckPw] at hchk)⟩

/-- An error result of the id-based create pins the whole handler result:
the error is surfaced and the committed state is the original one. -/
lemma createRegistrationById_error_eq (db : Db) (p : PayloadById)
    (failAt : Option CreateStep) (e : CreateError)
    (h : (createRegistrationById db p failAt).1 = .error e) :
    createRegistrationById db p failAt = (.error e, db) := by
  unfold createRegistrationById at h ⊢
  cases hrun : createRegistrationByIdRun db p failAt with
  | error e' =>
    rw [hrun] at h
    simp at h
    rw [h]
  | ok v =>
    obtain ⟨cid, db'⟩ := v
    rw [hrun] at h
    simp at h

/-- C4 (amended part): in the id-based create variant, a failure to resolve
the program, room type, enrollment plan or payment plan is surfaced as HTTP
400 with the human-readable message of that failure, and no rows are
written. -/
theorem createRegistrationById_validation_400 (db : Db) (p : PayloadById)
    (failAt : Option CreateStep) (e : CreateError)
    (herr : (createRegistrationById db p failAt).1 = .error e)
    (hres : e = .invalidProgramOrRoom ∨ e = .noEnrollmentPlan ∨
      e = .invalidPaymentPlan) :
    (createRegistrationByIdHttp db p failAt).1.status = 400 ∧
    (createRegistrationByIdHttp db p failAt).1.error =
      some (createErrorMessage e) ∧
    (createRegistrationByIdHttp db p failAt).2 = db := by
  have h2 := createRegistrationById_error_eq db p failAt e herr
  rcases hres with h | h | h <;> subst h <;>
    simp [createRegistrationByIdHttp, h2]

/-- Witness for the amended C4: a concrete id-based create whose payment-plan
id resolves to no row responds 400 with the payment-plan message and leaves
the database unchanged. -/
theorem createRegistrationById_validation_400_witness :
    (createRegistrationByIdHttp sampleDb
      { samplePayloadById with enrollmentProgramDetails :=
          { programType := 1, roomType := 1, planType := 99, status := none } }
      none).1.status = 400 ∧
    (createRegistrationByIdHttp sampleDb
      { samplePayloadById with enrollmentProgramDetails :=
          { programType := 1, roomType := 1, planType := 99, status := none } }
      none).1.error = some (createErrorMessage .invalidPaymentPlan) ∧
    (createRegistrationByIdHttp sampleDb
      { samplePayloadById with enrollmentProgramDetails :=
          { programType := 1, roomType := 1, planType := 99, status := none } }
      none).2 = sampleDb :=
  createRegistrationById_validation_400 sampleDb
    { samplePayloadById with enrollmentProgramDetails :=
        { programType := 1, roomType := 1, planType := 99, status := none } }
    none .invalidPaymentPlan rfl (Or.inr (Or.inr rfl))

/-- C4 (counterexample): in the cited name-based create variant the same
resolution failures are thrown and land in the catch block, which responds
HTTP 500 — not 400 — with the message as error body. -/
theorem createRegistration_validation_surfaces_500 :
    (createRegistrationHttp sampleDb
      { samplePayload with enrollmentProgramDetails :=
          { programType := "Part Time", roomType := "Infant", planType := "Monthly" } }
      none).1.status = 500 ∧
    (createRegistrationHttp sampleDb
      { samplePayload with enrollmentProgramDetails :=
          { programType := "Part Time", roomType := "Infant", planType := "Monthly" } }
      none).1.error = some "Invalid program or room type" ∧
    (createRegistrationHttp sampleDb
      { samplePayload with enrollmentProgramDetails :=
          { programType := "Part Time", roomType := "Infant", planType := "Monthly" } }
      none).1.status ≠ 400 :=
  ⟨rfl, rfl, by decide⟩

lemma failsAt_none (s : CreateStep) : failsAt none s = false := rfl

/-- C3 (amended part): in a create call whose owning user, program and room
type all resolve, a missing enrollmentplans mapping for the resolved
(programId, roomTypeId) pair fails the call with the message "No enrollment
plan found for selected program & room" and writes no rows; when a mapping
row exists, enrollment-plan resolution succeeds and — provided the payment
plan also resolves — the registration insert proceeds. -/
theorem enrollmentPlan_lookup_integrity (db : Db) (p : PayloadByName)
    (u : UserRow) (prog : ProgramRow) (room : RoomTypeRow)
    (hu : db.users.find? (fun r => sqlLower r.email == sqlLower p.email) = some u)
    (hprog : db.programs.find? (fun r =>
      sqlLower r.programname ==
        sqlLower (sqlTrim p.enrollmentProgramDetails.programType)) = some prog)
    (hroom : db.roomtypes.find? (fun r =>
      sqlLower r.roomtype ==
        sqlLower (sqlTrim p.enrollmentProgramDetails.roomType)) = some room) :
    (db.enrollmentplans.find? (fun r =>
        r.programid == prog.programid && r.roomtypeid == room.roomtypeid) = none →
      createRegistration db p none = (.error .noEnrollmentPlan, db) ∧
      createErrorMessage .noEnrollmentPlan =
        "No enrollment plan found for selected program & room") ∧
    (∀ eplan pplan,
      db.enrollmentplans.find? (fun r =>
        r.programid == prog.programid && r.roomtypeid == room.roomtypeid) =
          some eplan →
      db.paymentplans.find? (fun r =>
        sqlLower r.plantype ==
          sqlLower (sqlTrim p.enrollmentProgramDetails.planType)) = some pplan →
      ∃ db', createRegistration db p none = (.ok db.nextChildId, db') ∧
        db'.registrations = db.registrations ++
          [{ registrationid := db.nextRegistrationId
             childid := db.nextChildId
             enrollmentplanid := eplan.enrollmentplanid
             status := "Pending Approval"
             paymentplanid := pplan.paymentplanid
             amount := 0 }]) := by
  constructor
  · intro hnone
    unfold createRegistration createRegistrationRun
    simp only [failsAt_none, Bool.false_eq_true, if_false, hu, hprog, hroom, hnone]
    exact ⟨trivial, rfl⟩
  · intro eplan pplan heplan hpplan
    unfold createRegistration createRegistrationRun
    simp only [failsAt_none, Bool.false_eq_true, if_false, hu, hprog, hroom,
      heplan, hpplan]
    exact ⟨_, rfl, rfl⟩

/-- Witness for the amended C3: on a concrete database the missing mapping
fails with the enrollment-plan message and writes nothing, and with the
mapping and payment plan present the registration row is inserted. -/
theorem enrollmentPlan_lookup_integrity_witness :
    (createRegistration sampleDbNoMapping samplePayload none =
      (.error .noEnrollmentPlan, sampleDbNoMapping) ∧
     createErrorMessage .noEnrollmentPlan =
       "No enrollment plan found for selected program & room") ∧
    (∃ db', createRegistration sampleDb samplePayload none =
        (.ok sampleDb.nextChildId, db') ∧
      db'.registrations = sampleDb.registrations ++
        [{ registrationid := sampleDb.nextRegistrationId
           childid := sampleDb.nextChildId
           enrollmentplanid := 7
           status := "Pending Approval"
           paymentplanid := 1
           amount := 0 }]) :=
  ⟨(enrollmentPlan_lookup_integrity sampleDbNoMapping samplePayload
      { userid := 1, email := "user@example.com", password := "hash", roleid := 2 }
      { programid := 1, programname := "Full Time" }
      { roomtypeid := 1, roomtype := "Infant" }
      rfl rfl rfl).1 rfl,
   (enrollmentPlan_lookup_integrity sampleDb samplePayload
      { userid := 1, email := "user@example.com", password := "hash", roleid := 2 }
      { programid := 1, programname := "Full Time" }
      { roomtypeid := 1, roomtype := "Infant" }
      rfl rfl rfl).2
      { enrollmentplanid := 7, programid := 1, roomtypeid := 1 }
      { paymentplanid := 1, plantype := "Monthly" } rfl rfl⟩

/-- C3 (counterexample): with the user, program, room and the
enrollment-plan mapping all resolving but the payment plan not resolving,
the call fails ("Invalid payment plan type") and the registration insert
does not proceed — so a mapping row alone does not make the call succeed. -/
theorem enrollmentPlan_mapping_without_payment_plan :
    sampleDbNoPay.programs.find? (fun r =>
      sqlLower r.programname == sqlLower (sqlTrim "Full Time")) =
      some { programid := 1, programname := "Full Time" } ∧
    sampleDbNoPay.roomtypes.find? (fun r =>
      sqlLower r.roomtype == sqlLower (sqlTrim "Infant")) =
      some { roomtypeid := 1, roomtype := "Infant" } ∧
    sampleDbNoPay.enrollmentplans.find? (fun r =>
      r.programid == 1 && r.roomtypeid == 1) =
      some { enrollmentplanid := 7, programid := 1, roomtypeid := 1 } ∧
    createRegistration sampleDbNoPay samplePayload none =
      (.error .invalidPaymentPlan, sampleDbNoPay) ∧
    (createRegistration sampleDbNoPay samplePayload none).2.registrations = [] :=
  ⟨rfl, rfl, rfl, rfl, rfl⟩

/-- C8: every successful (name-based) create-registration call inserts
exactly one registrations row, referencing the resolved enrollment-plan id
and payment-plan id, with status "Pending Approval" and amount 0. -/
theorem createRegistration_row_pending_zero (db : Db) (p : PayloadByName)
    (cid : Nat) (db' : Db)
    (h : createRegistration db p none = (.ok cid, db')) :
    ∃ prog room eplan pplan,
      db.programs.find? (fun r => sqlLower r.programname ==
        sqlLower (sqlTrim p.enrollmentProgramDetails.programType)) = some prog ∧
      db.roomtypes.find? (fun r => sqlLower r.roomtype ==
        sqlLower (sqlTrim p.enrollmentProgramDetails.roomType)) = some room ∧
      db.enrollmentplans.find? (fun r =>
        r.programid == prog.programid && r.roomtypeid == room.roomtypeid) =
        some eplan ∧
      db.paymentplans.find? (fun r => sqlLower r.plantype ==
        sqlLower (sqlTrim p.enrollmentProgramDetails.planType)) = some pplan ∧
      db'.registrations = db.registrations ++
        [{ registrationid := db.nextRegistrationId
           childid := cid
           enrollmentplanid := eplan.enrollmentplanid
           status := "Pending Approval"
           paymentplanid := pplan.paymentplanid
           amount := 0 }] := by
  unfold createRegistration createRegistrationRun at h
  simp only [failsAt_none, Bool.false_eq_true, if_false] at h
  cases hu : db.users.find? (fun r => sqlLower r.email == sqlLower p.email) with
  | none => rw [hu] at h; simp at h
  | some u =>
  rw [hu] at h
  simp only [] at h
  cases hprog : db.programs.find? (fun r => sqlLower r.programname ==
      sqlLower (sqlTrim p.enrollmentProgramDetails.programType)) with
  | none => rw [hprog] at h; simp at h
  | some prog =>
  rw [hprog] at h
  cases hroom : db.roomtypes.find? (fun r => sqlLower r.roomtype ==
      sqlLower (sqlTrim p.enrollmentProgramDetails.roomType)) with
  | none => rw [hroom] at h; simp at h
  | some room =>
  rw [hroom] at h
  simp only [] at h
  cases heplan : db.enrollmentplans.find? (fun r =>
      r.programid == prog.programid && r.roomtypeid == room.roomtypeid) with
  | none => rw [heplan] at h; simp at h
  | some eplan =>
  rw [heplan] at h
  cases hpplan : db.paymentplans.find? (fun r => sqlLower r.plantype ==
      sqlLower (sqlTrim p.enrollmentProgramDetails.planType)) with
  | none => rw [hpplan] at h; simp at h
  | some pplan =>
  rw [hpplan] at h
  simp only [Prod.mk.injEq, Except.ok.injEq] at h
  obtain ⟨hcid, hdb⟩ := h
  subst hcid
  subst hdb
  exact ⟨prog, room, eplan, pplan, rfl, rfl, heplan, rfl, rfl⟩

/-- Witness for C8: the registration row inserted by a concrete successful
create references enrollment plan 7 and payment plan 1, status
"Pending Approval", amount 0. -/
theorem createRegistration_row_pending_zero_witness :
    ∃ prog room eplan pplan,
      sampleDb.programs.find? (fun r => sqlLower r.programname ==
        sqlLower (sqlTrim samplePayload.enrollmentProgramDetails.programType)) =
        some prog ∧
      sampleDb.roomtypes.find? (fun r => sqlLower r.roomtype ==
        sqlLower (sqlTrim samplePayload.enrollmentProgramDetails.roomType)) =
        some room ∧
      sampleDb.enrollmentplans.find? (fun r =>
        r.programid == prog.programid && r.roomtypeid == room.roomtypeid) =
        some eplan ∧
      sampleDb.paymentplans.find? (fun r => sqlLower r.plantype ==
        sqlLower (sqlTrim samplePayload.enrollmentProgramDetails.planType)) =
        some pplan ∧
      (createRegistration sampleDb samplePayload none).2.registrations =
        sampleDb.registrations ++
        [{ registrationid := sampleDb.nextRegistrationId
           childid := 1
           enrollmentplanid := eplan.enrollmentplanid
           status := "Pending Approval"
           paymentplanid := pplan.paymentplanid
           amount := 0 }] :=
  createRegistration_row_pending_zero sampleDb samplePayload 1
    (createRegistration sampleDb samplePayload none).2 rfl

/-! ## Lemmas about the get-all-students grouping loop -/

lemma dedupFirst_sublist (rows : List JoinRow) (seen : List Nat) :
    List.Sublist (dedupFirst rows seen) rows := by
  induction rows generalizing seen with
  | nil => simp [dedupFirst]
  | cons x xs ih =>
    simp only [dedupFirst]
    by_cases hc : x.childid ∈ seen
    · rw [if_pos hc]
      exact (ih seen).cons x
    · rw [if_neg hc]
      exact (ih (x.childid :: seen)).cons₂ x

lemma mem_dedupFirst_not_seen (rows : List JoinRow) (seen : List Nat)
    (r : JoinRow) (hr : r ∈ dedupFirst rows seen) : r.childid ∉ seen := by
  induction rows generalizing seen with
  | nil => simp [dedupFirst] at hr
  | cons x xs ih =>
    simp only [dedupFirst] at hr
    by_cases hc : x.childid ∈ seen
    · rw [if_pos hc] at hr
      exact ih seen hr
    · rw [if_neg hc] at hr
      rcases List.mem_cons.mp hr with h | h
      · subst h
        exact hc
      · intro hmem
        exact (ih (x.childid :: seen) h) (List.mem_cons_of_mem _ hmem)

lemma dedupFirst_childids_nodup (rows : List JoinRow) (seen : List Nat) :
    ((dedupFirst rows seen).map (fun r => r.childid)).Nodup := by
  induction rows generalizing seen with
  | nil => simp [dedupFirst]
  | cons x xs ih =>
    simp only [dedupFirst]
    by_cases hc : x.childid ∈ seen
    · rw [if_pos hc]
      exact ih seen
    · rw [if_neg hc]
      simp only [List.map_cons, List.nodup_cons]
      refine ⟨?_, ih (x.childid :: seen)⟩
      intro hmem
      obtain ⟨r, hr, hrid⟩ := List.mem_map.mp hmem
      apply mem_dedupFirst_not_seen xs (x.childid :: seen) r hr
      rw [hrid]
      exact List.mem_cons_self _ _

lemma dedupFirst_find?_self (rows : List JoinRow) (seen : List Nat)
    (r : JoinRow) (hr : r ∈ dedupFirst rows seen) :
    rows.find? (fun x => x.childid == r.childid) = some r := by
  induction rows generalizing seen with
  | nil => simp [dedupFirst] at hr
  | cons x xs ih =>
    simp only [dedupFirst] at hr
    by_cases hc : x.childid ∈ seen
    · rw [if_pos hc] at hr
      have hne : (x.childid == r.childid) = false := by
        simp only [beq_eq_false_iff_ne, ne_eq]
        intro he
        exact (mem_dedupFirst_not_seen xs seen r hr) (he ▸ hc)
      rw [List.find?_cons_of_neg _ (by simp [hne]), ih seen hr]
    · rw [if_neg hc] at hr
      rcases List.mem_cons.mp hr with h | h
      · subst h
        rw [List.find?_cons_of_pos _ (by simp)]
      · have hne : (x.childid == r.childid) = false := by
          simp only [beq_eq_false_iff_ne, ne_eq]
          intro he
          apply mem_dedupFirst_not_seen xs (x.childid :: seen) r h
          rw [← he]
          exact List.mem_cons_self _ _
        rw [List.find?_cons_of_neg _ (by simp [hne]),
          ih (x.childid :: seen) h]

lemma dedupFirst_sorted (rows : List JoinRow) (seen : List Nat)
    (hs : rows.Pairwise (fun a b => b.childid ≤ a.childid)) :
    (dedupFirst rows seen).Pairwise (fun a b => b.childid < a.childid) := by
  have hle : (dedupFirst rows seen).Pairwise (fun a b => b.childid ≤ a.childid) :=
    hs.sublist (dedupFirst_sublist rows seen)
  have hne : (dedupFirst rows seen).Pairwise (fun a b => a.childid ≠ b.childid) :=
    List.pairwise_map.mp (dedupFirst_childids_nodup rows seen)
  exact (hle.and hne).imp (fun h => lt_of_le_of_ne h.1 (Ne.symm h.2))

/-- C10 (counterexample): on an empty result set the handler takes the
early return and responds without a `totalCount` field, so "totalCount
equals the length of the data list" fails there. -/
theorem getAllStudents_empty_no_totalCount :
    getAllStudents [] = { totalCount := none, data := [] } ∧
    (getAllStudents []).totalCount ≠ some ((getAllStudents []).data.length) :=
  ⟨rfl, by decide⟩

/-- C10 (amended): on join rows ordered by child id descending (the query's
`ORDER BY c.childid DESC`), the get-all-students response keeps at most one
student per child id — exactly the first row encountered for that id — and
its data list is strictly descending in child id; on a nonempty result set
`totalCount` equals the length of the data list, while an empty result set
is answered by the early return with `data: []` and no `totalCount`
field. -/
theorem getAllStudents_grouping (rows : List JoinRow)
    (hs : rows.Pairwise (fun a b => b.childid ≤ a.childid)) :
    ((getAllStudents rows).data.map (fun s => s.childInfo.childId)).Nodup ∧
    (getAllStudents rows).data.Pairwise
      (fun a b => b.childInfo.childId < a.childInfo.childId) ∧
    (∀ s ∈ (getAllStudents rows).data, ∃ r,
      rows.find? (fun x => x.childid == r.childid) = some r ∧
      s = studentOfJoinRow r) ∧
    (rows ≠ [] →
      (getAllStudents rows).totalCount =
        some (getAllStudents rows).data.length) ∧
    (rows = [] → getAllStudents rows = { totalCount := none, data := [] }) := by
  cases rows with
  | nil => exact ⟨by simp [getAllStudents], by simp [getAllStudents],
      by simp [getAllStudents], fun hne => absurd rfl hne, fun _ => rfl⟩
  | cons x xs =>
    have hglue : getAllStudents (x :: xs) =
        { totalCount := some ((dedupFirst (x :: xs) []).map studentOfJoinRow).length
          data := (dedupFirst (x :: xs) []).map studentOfJoinRow } := by
      simp [getAllStudents]
    refine ⟨?_, ?_, ?_, fun _ => by rw [hglue], fun heq => by cases heq⟩
    · have h := dedupFirst_childids_nodup (x :: xs) []
      rw [hglue]
      simpa [List.map_map, Function.comp, studentOfJoinRow] using h
    · have h := dedupFirst_sorted (x :: xs) [] hs
      rw [hglue]
      exact List.pairwise_map.mpr h
    · intro s hsmem
      rw [hglue] at hsmem
      obtain ⟨r, hr, hsr⟩ := List.mem_map.mp hsmem
      exact ⟨r, dedupFirst_find?_self (x :: xs) [] r hr, hsr.symm⟩

/-- Witness for the amended C10 at a concrete nonempty row list with a
duplicated child id. -/
theorem getAllStudents_grouping_witness :
    ((getAllStudents sampleRows).data.map (fun s => s.childInfo.childId)).Nodup ∧
    (getAllStudents sampleRows).data.Pairwise
      (fun a b => b.childInfo.childId < a.childInfo.childId) ∧
    (∀ s ∈ (getAllStudents sampleRows).data, ∃ r,
      sampleRows.find? (fun x => x.childid == r.childid) = some r ∧
      s = studentOfJoinRow r) ∧
    (sampleRows ≠ [] →
      (getAllStudents sampleRows).totalCount =
        some (getAllStudents sampleRows).data.length) ∧
    (sampleRows = [] →
      getAllStudents sampleRows = { totalCount := none, data := [] }) :=
  getAllStudents_grouping sampleRows (by
    simp [sampleRows, List.pairwise_cons, childOnlyJoinRow,
      sampleChildRow, sampleChildRow2])

/-- C2 (counterexample): submitting physicianFirstName "John" (and last name
"Smith") and fetching the created student returns physicianFirstName
"John Smith" — the create stores the concatenated name in the single
`physicianname` column and the query aliases that column back as
`physicianFirstName`, so the field does not round-trip. -/
theorem physician_first_name_no_roundtrip :
    samplePayload.medicalInfo.physicianFirstName = "John" ∧
    (createRegistration sampleDb samplePayload none).1 = .ok 1 ∧
    ((getStudentById (createRegistration sampleDb samplePayload none).2 1).2.map
      (fun s => s.medicalInfo.physicianFirstName)) = some (some "John Smith") ∧
    (some "John Smith" : Option String) ≠
      some samplePayload.medicalInfo.physicianFirstName :=
  ⟨rfl, rfl, rfl, by decide⟩

/-- C2 (amended): fetching a freshly created registration by the returned
child id yields one nested student; every field of its child, guardian,
medical and care-facility sections equals the submitted payload's field
(country codes normalized to "+1") except where the create drops data: the
physician name parts come back as the concatenated first+last name in
physicianFirstName with null middle and last names, and the guardian
alternate phone type/number (and alternate country code) come back null
because the cited create never writes those columns. -/
theorem create_then_fetch_roundtrip (db : Db) (p : PayloadByName)
    (cid : Nat) (db' : Db) (hfresh : db.freshIds = true)
    (h : createRegistration db p none = (.ok cid, db')) :
    ∃ s, getStudentById db' cid = (200, some s) ∧
      s.childInfo.childId = cid ∧
      s.childInfo.firstName = some p.childInfo.firstName ∧
      s.childInfo.middleName = some p.childInfo.middleName ∧
      s.childInfo.lastName = some p.childInfo.lastName ∧
      s.childInfo.gender = some p.childInfo.gender ∧
      s.childInfo.dateOfBirth = some p.childInfo.dateOfBirth ∧
      s.childInfo.placeOfBirth = some p.childInfo.placeOfBirth ∧
      s.parentGuardianInfo.firstName = some p.parentGuardianInfo.firstName ∧
      s.parentGuardianInfo.middleName = some p.parentGuardianInfo.middleName ∧
      s.parentGuardianInfo.lastName = some p.parentGuardianInfo.lastName ∧
      s.parentGuardianInfo.email = some p.parentGuardianInfo.email ∧
      s.parentGuardianInfo.address1 = some p.parentGuardianInfo.address1 ∧
      s.parentGuardianInfo.address2 = some p.parentGuardianInfo.address2 ∧
      s.parentGuardianInfo.city = some p.parentGuardianInfo.city ∧
      s.parentGuardianInfo.state = some p.parentGuardianInfo.state ∧
      s.parentGuardianInfo.country = some p.parentGuardianInfo.country ∧
      s.parentGuardianInfo.zipCode = some p.parentGuardianInfo.zipCode ∧
      s.parentGuardianInfo.phoneType = some p.parentGuardianInfo.phoneType ∧
      s.parentGuardianInfo.phoneNumber = some p.parentGuardianInfo.phoneNumber ∧
      s.parentGuardianInfo.relationship = some p.parentGuardianInfo.relationship ∧
      s.parentGuardianInfo.countryCode = some "+1" ∧
      s.parentGuardianInfo.alternatePhoneType = none ∧
      s.parentGuardianInfo.alternatePhoneNumber = none ∧
      s.parentGuardianInfo.alternateCountryCode = none ∧
      s.medicalInfo.address1 = some p.medicalInfo.address1 ∧
      s.medicalInfo.address2 = some p.medicalInfo.address2 ∧
      s.medicalInfo.city = some p.medicalInfo.city ∧
      s.medicalInfo.state = some p.medicalInfo.state ∧
      s.medicalInfo.country = some p.medicalInfo.country ∧
      s.medicalInfo.zipCode = some p.medicalInfo.zipCode ∧
      s.medicalInfo.phoneType = some p.medicalInfo.phoneType ∧
      s.medicalInfo.phoneNumber = some p.medicalInfo.phoneNumber ∧
      s.medicalInfo.countryCode = some "+1" ∧
      s.medicalInfo.physicianFirstName = some (p.medicalInfo.physicianFirstName ++ " " ++ p.medicalInfo.physicianLastName) ∧
      s.medicalInfo.physicianMiddleName = none ∧
      s.medicalInfo.physicianLastName = none ∧
      s.careFacilityInfo.emergencyContactName = some p.careFacilityInfo.emergencyContactName ∧
      s.careFacilityInfo.emergencyPhoneNumber = some p.careFacilityInfo.emergencyPhoneNumber ∧
      s.careFacilityInfo.address1 = some p.careFacilityInfo.address1 ∧
      s.careFacilityInfo.address2 = some p.careFacilityInfo.address2 ∧
      s.careFacilityInfo.city = some p.careFacilityInfo.city ∧
      s.careFacilityInfo.state = some p.careFacilityInfo.state ∧
      s.careFacilityInfo.country = some p.careFacilityInfo.country ∧
      s.careFacilityInfo.zipCode = some p.careFacilityInfo.zipCode ∧
      s.careFacilityInfo.phoneType = some p.careFacilityInfo.phoneType ∧
      s.careFacilityInfo.countryCode = some "+1" := by
  simp only [Db.freshIds, Bool.and_eq_true, List.all_eq_true, bne_iff_ne,
    ne_eq] at hfresh
  obtain ⟨⟨⟨⟨⟨hfc, hfcg⟩, hfm⟩, hff⟩, hfr⟩, hfg⟩ := hfresh
  unfold createRegistration createRegistrationRun at h
  simp only [failsAt_none, Bool.false_eq_true, if_false] at h
  cases hu : db.users.find? (fun r => sqlLower r.email == sqlLower p.email) with
  | none => rw [hu] at h; simp at h
  | some u =>
  rw [hu] at h
  simp only [] at h
  cases hprog : db.programs.find? (fun r => sqlLower r.programname ==
      sqlLower (sqlTrim p.enrollmentProgramDetails.programType)) with
  | none => rw [hprog] at h; simp at h
  | some prog =>
  rw [hprog] at h
  cases hroom : db.roomtypes.find? (fun r => sqlLower r.roomtype ==
      sqlLower (sqlTrim p.enrollmentProgramDetails.roomType)) with
  | none => rw [hroom] at h; simp at h
  | some room =>
  rw [hroom] at h
  simp only [] at h
  cases heplan : db.enrollmentplans.find? (fun r =>
      r.programid == prog.programid && r.roomtypeid == room.roomtypeid) with
  | none => rw [heplan] at h; simp at h
  | some eplan =>
  rw [heplan] at h
  cases hpplan : db.paymentplans.find? (fun r => sqlLower r.plantype ==
      sqlLower (sqlTrim p.enrollmentProgramDetails.planType)) with
  | none => rw [hpplan] at h; simp at h
  | some pplan =>
  rw [hpplan] at h
  simp only [Prod.mk.injEq, Except.ok.injEq] at h
  obtain ⟨hcid, hdb⟩ := h
  subst hcid
  subst hdb
  have hc0 : db.children.find? (fun c => c.childid == db.nextChildId) = none :=
    List.find?_eq_none.mpr (fun x hx => by simp [hfc x hx])
  have hcg0 : db.childGuardians.find?
      (fun x => x.childid == db.nextChildId && x.isprimary) = none :=
    List.find?_eq_none.mpr (fun x hx => by simp [hfcg x hx])
  have hg0 : db.guardians.find?
      (fun x => x.guardianid == db.nextGuardianId) = none :=
    List.find?_eq_none.mpr (fun x hx => by simp [hfg x hx])
  have hm0 : db.medicalcontacts.find?
      (fun x => x.childid == db.nextChildId) = none :=
    List.find?_eq_none.mpr (fun x hx => by simp [hfm x hx])
  have hf0 : db.carefacilities.find?
      (fun x => x.childid == db.nextChildId) = none :=
    List.find?_eq_none.mpr (fun x hx => by simp [hff x hx])
  have hr0 : db.registrations.find?
      (fun x => x.childid == db.nextChildId) = none :=
    List.find?_eq_none.mpr (fun x hx => by simp [hfr x hx])
  simp only [getStudentById, joinRowFor, childOnlyJoinRow, withGuardianCols,
    withMedicalCols, withCareFacilityCols, withEnrollmentCols,
    studentOfJoinRow, List.find?_append, hc0, hcg0, hg0, hm0, hf0, hr0,
    Option.none_or, List.find?_cons, beq_self_eq_true, Bool.true_and,
    Bool.and_true, List.find?_nil, Option.some_bind, Option.map_some]
  exact ⟨_, rfl, rfl, rfl, rfl, rfl, rfl, rfl, rfl, rfl, rfl, rfl, rfl, rfl, rfl, rfl, rfl, rfl, rfl, rfl, rfl, rfl, rfl, rfl, rfl, rfl, rfl, rfl, rfl, rfl, rfl, rfl, rfl, rfl, rfl, rfl, rfl, rfl, rfl, rfl, rfl, rfl, rfl, rfl, rfl, rfl, rfl, rfl⟩

/-- Witness for the amended C2 at a concrete creation that submits a
guardian alternate phone number and gets null back for it. -/
theorem create_then_fetch_roundtrip_witness :
    samplePayloadAlt.parentGuardianInfo.alternatePhoneNumber =
      some "5550009999" ∧
    ∃ s, getStudentById (createRegistration sampleDb samplePayloadAlt none).2 1 =
        (200, some s) ∧
      s.childInfo.childId = 1 ∧
      s.childInfo.firstName = some samplePayloadAlt.childInfo.firstName ∧
      s.childInfo.middleName = some samplePayloadAlt.childInfo.middleName ∧
      s.childInfo.lastName = some samplePayloadAlt.childInfo.lastName ∧
      s.childInfo.gender = some samplePayloadAlt.childInfo.gender ∧
      s.childInfo.dateOfBirth = some samplePayloadAlt.childInfo.dateOfBirth ∧
      s.childInfo.placeOfBirth = some samplePayloadAlt.childInfo.placeOfBirth ∧
      s.parentGuardianInfo.firstName = some samplePayloadAlt.parentGuardianInfo.firstName ∧
      s.parentGuardianInfo.middleName = some samplePayloadAlt.parentGuardianInfo.middleName ∧
      s.parentGuardianInfo.lastName = some samplePayloadAlt.parentGuardianInfo.lastName ∧
      s.parentGuardianInfo.email = some samplePayloadAlt.parentGuardianInfo.email ∧
      s.parentGuardianInfo.address1 = some samplePayloadAlt.parentGuardianInfo.address1 ∧
      s.parentGuardianInfo.address2 = some samplePayloadAlt.parentGuardianInfo.address2 ∧
      s.parentGuardianInfo.city = some samplePayloadAlt.parentGuardianInfo.city ∧
      s.parentGuardianInfo.state = some samplePayloadAlt.parentGuardianInfo.state ∧
      s.parentGuardianInfo.country = some samplePayloadAlt.parentGuardianInfo.country ∧
      s.parentGuardianInfo.zipCode = some samplePayloadAlt.parentGuardianInfo.zipCode ∧
      s.parentGuardianInfo.phoneType = some samplePayloadAlt.parentGuardianInfo.phoneType ∧
      s.parentGuardianInfo.phoneNumber = some samplePayloadAlt.parentGuardianInfo.phoneNumber ∧
      s.parentGuardianInfo.relationship = some samplePayloadAlt.parentGuardianInfo.relationship ∧
      s.parentGuardianInfo.countryCode = some "+1" ∧
      s.parentGuardianInfo.alternatePhoneType = none ∧
      s.parentGuardianInfo.alternatePhoneNumber = none ∧
      s.parentGuardianInfo.alternateCountryCode = none ∧
      s.medicalInfo.address1 = some samplePayloadAlt.medicalInfo.address1 ∧
      s.medicalInfo.address2 = some samplePayloadAlt.medicalInfo.address2 ∧
      s.medicalInfo.city = some samplePayloadAlt.medicalInfo.city ∧
      s.medicalInfo.state = some samplePayloadAlt.medicalInfo.state ∧
      s.medicalInfo.country = some samplePayloadAlt.medicalInfo.country ∧
      s.medicalInfo.zipCode = some samplePayloadAlt.medicalInfo.zipCode ∧
      s.medicalInfo.phoneType = some samplePayloadAlt.medicalInfo.phoneType ∧
      s.medicalInfo.phoneNumber = some samplePayloadAlt.medicalInfo.phoneNumber ∧
      s.medicalInfo.countryCode = some "+1" ∧
      s.medicalInfo.physicianFirstName = some (samplePayloadAlt.medicalInfo.physicianFirstName ++ " " ++ samplePayloadAlt.medicalInfo.physicianLastName) ∧
      s.medicalInfo.physicianMiddleName = none ∧
      s.medicalInfo.physicianLastName = none ∧
      s.careFacilityInfo.emergencyContactName = some samplePayloadAlt.careFacilityInfo.emergencyContactName ∧
      s.careFacilityInfo.emergencyPhoneNumber = some samplePayloadAlt.careFacilityInfo.emergencyPhoneNumber ∧
      s.careFacilityInfo.address1 = some samplePayloadAlt.careFacilityInfo.address1 ∧
      s.careFacilityInfo.address2 = some samplePayloadAlt.careFacilityInfo.address2 ∧
      s.careFacilityInfo.city = some samplePayloadAlt.careFacilityInfo.city ∧
      s.careFacilityInfo.state = some samplePayloadAlt.careFacilityInfo.state ∧
      s.careFacilityInfo.country = some samplePayloadAlt.careFacilityInfo.country ∧
      s.careFacilityInfo.zipCode = some samplePayloadAlt.careFacilityInfo.zipCode ∧
      s.careFacilityInfo.phoneType = some samplePayloadAlt.careFacilityInfo.phoneType ∧
      s.careFacilityInfo.countryCode = some "+1" :=
  ⟨rfl, create_then_fetch_roundtrip sampleDb samplePayloadAlt 1
    (createRegistration sampleDb samplePayloadAlt none).2 rfl rfl⟩

end RegistrationApp
